import Mathlib

/-!
# Internal Transfers System: ledger transfer engine

A shallow embedding of the Go sources

* `codes/codes.go`                          (error values),
* `models/account.go`, `models/transfer.go` (records),
* `storage/account_repository.go`, `storage/transfer_repository.go`,
* `service/account/*.go`, `service/transactions/*.go`,

followed by theorems about the embedded functions.

Modelling conventions.

* `decimal.Decimal` (package shopspring/decimal) and the SQL type `numeric` are exact
  decimals; a value is represented by the rational number it denotes, `Add`, `Sub` and the
  comparisons are the exact ones.
* Go `int` account and transfer ids are `Int`; the code does no arithmetic on them.
* The database is a value `DB`: the `accounts` table maps a primary key to its row, the
  `transactions` table is the list of its rows in insertion order.
* A database transaction (`Tx`) works on a private copy of the tables.  A `Commit` that is
  served publishes the copy; a `Commit` that fails publishes nothing; the deferred `Rollback`
  (every `return` before a successful `Commit`) discards the copy.  A statement that fails
  has no effect.
* Calls are executed one after another; there is no interleaving of transactions.
* What the database answers for reasons that are not a function of the tables (a lost
  connection, a cancelled context, the id drawn for a new row, the value of `NOW()`) is an
  explicit input of the call: `TxEnv`, respectively an `Option String` holding the text of
  the driver error.
* Every statement sent to the database is logged in a `List Stmt`.
* Functions of imported packages whose code is not part of the repository are collected in
  `Extern` and passed as a parameter.
-/

namespace Transfers

/-! ## Decimals -/

/-- Exact decimal number, represented by the rational it denotes. -/
abbrev Decimal := ℚ

namespace Decimal

/-- Method `Decimal.LessThan`. -/
def LessThan (d d2 : Decimal) : Bool := decide (d < d2)

/-- Method `Decimal.IsNegative`. -/
def IsNegative (d : Decimal) : Bool := decide (d < 0)

/-- Method `Decimal.IsZero`. -/
def IsZero (d : Decimal) : Bool := decide (d = 0)

/-- Method `Decimal.Sub`. -/
def Sub (d d2 : Decimal) : Decimal := d - d2

/-- Method `Decimal.Add`. -/
def Add (d d2 : Decimal) : Decimal := d + d2

end Decimal

/-- Functions of imported packages (shopspring/decimal, time) used by the service layer. -/
structure Extern where
  /-- Function `decimal.NewFromString`: the parsed value, or the text of the parse error. -/
  NewFromString : String → Except String Decimal
  /-- Method `decimal.Decimal.String`. -/
  DecimalString : Decimal → String
  /-- Expression `t.Format(time.RFC3339)`. -/
  FormatRFC3339 : Nat → String

/-- Value of a string of decimal digits read after the digits worth `acc`. -/
def digitsValue (acc : Nat) : List Char → Option Nat
  | [] => some acc
  | c :: cs => if c.isDigit then digitsValue (10 * acc + (c.toNat - 48)) cs else none

/-- A reader of plain decimal numerals (optional sign, digits, optional point and digits),
used to run the service functions on concrete requests.  Numerals with an exponent, such as
`1e3`, which `decimal.NewFromString` reads as well, are answered with the parse error. -/
def parseDecimal (s : String) : Except String Decimal :=
  let signed : Bool × List Char :=
    match s.toList with
    | '-' :: rest => (true, rest)
    | '+' :: rest => (false, rest)
    | cs => (false, cs)
  let intPart := signed.2.takeWhile (fun c => c != '.')
  let fracPart := (signed.2.dropWhile (fun c => c != '.')).drop 1
  if intPart.isEmpty && fracPart.isEmpty then .error ("can't convert " ++ s ++ " to decimal")
  else
    match digitsValue 0 (intPart ++ fracPart) with
    | some n => .ok ((if signed.1 then -(n : ℚ) else (n : ℚ)) / 10 ^ fracPart.length)
    | none => .error ("can't convert " ++ s ++ " to decimal")

/-- The least `k`, searched upwards from `k` in at most `fuel` steps, with `den` dividing
`10 ^ k`: the number of fractional digits of a decimal with denominator `den`. -/
def decimalPlaces (den : Nat) : Nat → Nat → Nat
  | 0, k => k
  | fuel + 1, k => if 10 ^ k % den = 0 then k else decimalPlaces den fuel (k + 1)

/-- Decimal numeral of the fraction `num / den` in lowest terms: sign, integer digits and,
when there are fractional digits, a point and the fractional digits without trailing
zeros. -/
def renderFraction (num : Int) (den : Nat) : String :=
  let k := decimalPlaces den den 0
  let n := num.natAbs * 10 ^ k / den
  let intPart := toString (n / 10 ^ k)
  let fracDigits := toString (n % 10 ^ k)
  let sign := if num < 0 then "-" else ""
  if k = 0 then sign ++ intPart
  else
    sign ++ intPart ++ "." ++ String.mk (List.replicate (k - fracDigits.length) '0')
      ++ fracDigits

/-- A writer of decimal numerals in the manner of `decimal.Decimal.String` (`100.00` is
written `100`), used to run the service functions on concrete requests. -/
def renderDecimal (d : Decimal) : String := renderFraction d.num d.den

/-- One concrete choice of the imported functions: `parseDecimal`, `renderDecimal`, and the
clock reading in decimal. -/
def Extern.sample : Extern :=
  ⟨parseDecimal, renderDecimal, fun t => toString t⟩

/-! ## codes/codes.go -/

/-- Struct `codes.CodeError`. -/
structure CodeError where
  Code : Int
  Msg : String
deriving DecidableEq, Repr

def Success : CodeError := ⟨0, "success"⟩
def ErrSystem : CodeError := ⟨1, "system error"⟩
def ErrInvalidParams : CodeError := ⟨2, "invalid params"⟩
def ErrTimeout : CodeError := ⟨3, "request timeout"⟩
def ErrNegativeBalance : CodeError := ⟨4, "initial balance cannot be negative"⟩
def ErrAccountExists : CodeError := ⟨5, "account with this ID already exists"⟩
def ErrInvalidAccountID : CodeError := ⟨6, "account ID must be a positive integer"⟩
def ErrAccountNotFound : CodeError := ⟨7, "account not found"⟩
def ErrSameAccountTransfer : CodeError := ⟨8, "cannot transfer to the same account"⟩
def ErrInsufficientFunds : CodeError := ⟨9, "insufficient funds for transfer"⟩
def ErrSourceAccountNotFound : CodeError := ⟨10, "source account not found"⟩
def ErrDestinationAccountNotFound : CodeError := ⟨11, "destination account not found"⟩

/-- Function `codes.NewWithMsg`; `msg` is the text `fmt.Sprintf(format, args...)`. -/
def NewWithMsg (err : CodeError) (msg : String) : CodeError := ⟨err.Code, msg⟩

/-- A Go `error` value that is not nil: a `codes.CodeError`, or any other error (made by
`fmt.Errorf`, the database driver or the decimal parser), which `errors.As` does not turn
into a `CodeError`. -/
inductive GoError where
  | code (e : CodeError)
  | plain (msg : String)
deriving DecidableEq, Repr

/-! ## models -/

/-- Struct `models.Account`; times are clock readings, `0` is the zero `time.Time`. -/
structure Account where
  ID : Int
  InitialBalance : Decimal
  CreatedAt : Nat
  UpdatedAt : Nat
deriving DecidableEq

/-- Struct `models.Transfer`. -/
structure Transfer where
  ID : Int
  SourceAccountID : Int
  DestinationAccountID : Int
  Amount : Decimal
  CreatedAt : Nat
  UpdatedAt : Nat
deriving DecidableEq

/-! ## The database -/

/-- Modelled from the spec: the declaration of table `accounts` is not among the sources;
the spec gives `accounts(id PK, balance numeric(arbitrary precision), created_at,
updated_at)` and no further constraint.  This is a row without its primary key `id`. -/
structure AccountRow where
  balance : Decimal
  created_at : Nat
  updated_at : Nat
deriving DecidableEq

/-- Modelled from the spec: the declaration of table `transactions` is not among the
sources; the spec gives `(id PK auto-assigned, source_account_id, destination_account_id,
amount numeric, created_at, updated_at)`. -/
structure TransactionRow where
  id : Int
  source_account_id : Int
  destination_account_id : Int
  amount : Decimal
  created_at : Nat
  updated_at : Nat
deriving DecidableEq

/-- Committed contents of the two tables. -/
structure DB where
  accounts : Int → Option AccountRow
  transactions : List TransactionRow

/-- Database without any row. -/
def DB.empty : DB := ⟨fun _ => none, []⟩

/-- Statement sent to the database. -/
inductive Stmt where
  | begin
  | selectBalanceForUpdate (id : Int)
  | updateBalanceSub (id : Int) (amount : Decimal)
  | updateBalanceAdd (id : Int) (amount : Decimal)
  | insertTransaction (source dest : Int) (amount : Decimal)
  | commit
  | insertAccount (id : Int)
  | selectAccount (id : Int)
deriving DecidableEq

/-- Answer to a single-row query scanned with `Scan`. -/
inductive RowResult (α : Type) where
  | row (a : α)
  | noRows
  | failed (msg : String)

/-- What the database answers to one `ProcessTransfer` call beyond the table contents:
for each statement in the order of execution the text of a driver error (`none` when the
statement is served), the value of `NOW()` and the id drawn for the inserted row. -/
structure TxEnv where
  beginErr : Option String
  lockFirstErr : Option String
  lockSecondErr : Option String
  debitErr : Option String
  creditErr : Option String
  insertErr : Option String
  commitErr : Option String
  now : Nat
  newID : Int

/-- Environment in which every statement is served. -/
def TxEnv.healthy (now : Nat) (newID : Int) : TxEnv :=
  ⟨none, none, none, none, none, none, none, now, newID⟩

/-- Query `SELECT balance FROM accounts WHERE id = $1 FOR UPDATE` followed by `Scan`. -/
def selectBalanceForUpdate (db : DB) (driverErr : Option String) (id : Int) :
    RowResult Decimal :=
  match driverErr with
  | some e => .failed e
  | none =>
    match db.accounts id with
    | some r => .row r.balance
    | none => .noRows

/-- Statement `UPDATE accounts SET balance = f(balance), updated_at = NOW() WHERE id = $2`. -/
def updateBalance (db : DB) (id : Int) (f : Decimal → Decimal) (now : Nat) : DB :=
  { db with
    accounts := fun k =>
      if k = id then (db.accounts k).map (fun r => { r with balance := f r.balance, updated_at := now })
      else db.accounts k }

/-- Statement `INSERT INTO transactions (...) VALUES ($1, $2, $3, NOW(), NOW()) RETURNING id`. -/
def insertTransaction (db : DB) (newID : Int) (source dest : Int) (amount : Decimal)
    (now : Nat) : DB :=
  { db with transactions := db.transactions ++ [⟨newID, source, dest, amount, now, now⟩] }

/-- A transaction of the pool (`pgx.Tx`): the database as committed when the transaction
began, and the private copy that carries the transaction's own writes. -/
structure Tx where
  base : DB
  work : DB

/-- Method `Begin` of the pool, when it is served. -/
@[simp] def DB.Begin (db : DB) : Tx := ⟨db, db⟩

/-- A write of the transaction: it changes the private copy only. -/
@[simp] def Tx.Exec (tx : Tx) (write : DB → DB) : Tx := { tx with work := write tx.work }

/-- Method `Commit`, when it is served: the private copy becomes the committed database.
A `Commit` that fails publishes nothing. -/
@[simp] def Tx.Commit (tx : Tx) : DB := tx.work

/-- Method `Rollback`: the committed database stays as it was when the transaction
began. -/
@[simp] def Tx.Rollback (tx : Tx) : DB := tx.base

/-! ## storage/transfer_repository.go -/

/-- Result of one `ProcessTransfer` call: the returned values, the committed database
afterwards and the statements that were sent. -/
structure TransferOutcome where
  result : Except GoError (Transfer × Decimal × Decimal)
  db : DB
  trace : List Stmt

/-- Lines 35-76 of `ProcessTransfer`: the two locking reads, in the order of the ids.
Returns the error of an early `return`, or `(sourceBalance, destBalance)`, and the
statements sent. -/
def lockAccounts (db : DB) (env : TxEnv) (sourceAccountID destAccountID : Int) :
    Except GoError (Decimal × Decimal) × List Stmt :=
  if sourceAccountID < destAccountID then
    match selectBalanceForUpdate db env.lockFirstErr sourceAccountID with
    | .noRows => (.error (.code ErrSourceAccountNotFound), [.selectBalanceForUpdate sourceAccountID])
    | .failed e =>
      (.error (.plain ("failed to lock source account: " ++ e)),
        [.selectBalanceForUpdate sourceAccountID])
    | .row sourceBalance =>
      match selectBalanceForUpdate db env.lockSecondErr destAccountID with
      | .noRows =>
        (.error (.code ErrDestinationAccountNotFound),
          [.selectBalanceForUpdate sourceAccountID, .selectBalanceForUpdate destAccountID])
      | .failed e =>
        (.error (.plain ("failed to lock source account: " ++ e)),
          [.selectBalanceForUpdate sourceAccountID, .selectBalanceForUpdate destAccountID])
      | .row destBalance =>
        (.ok (sourceBalance, destBalance),
          [.selectBalanceForUpdate sourceAccountID, .selectBalanceForUpdate destAccountID])
  else
    match selectBalanceForUpdate db env.lockFirstErr destAccountID with
    | .noRows =>
      (.error (.code ErrDestinationAccountNotFound), [.selectBalanceForUpdate destAccountID])
    | .failed e =>
      (.error (.plain ("failed to lock source account: " ++ e)),
        [.selectBalanceForUpdate destAccountID])
    | .row destBalance =>
      match selectBalanceForUpdate db env.lockSecondErr sourceAccountID with
      | .noRows =>
        (.error (.code ErrSourceAccountNotFound),
          [.selectBalanceForUpdate destAccountID, .selectBalanceForUpdate sourceAccountID])
      | .failed e =>
        (.error (.plain ("failed to lock source account: " ++ e)),
          [.selectBalanceForUpdate destAccountID, .selectBalanceForUpdate sourceAccountID])
      | .row sourceBalance =>
        (.ok (sourceBalance, destBalance),
          [.selectBalanceForUpdate destAccountID, .selectBalanceForUpdate sourceAccountID])

/-- Method `TransferRepository.ProcessTransfer`.  `db` is the committed database when the
call starts.  Every `return` before the successful `Commit` runs the deferred
`tx.Rollback`; after a successful `Commit` the deferred call has no effect. -/
def ProcessTransfer (db : DB) (env : TxEnv) (sourceAccountID destAccountID : Int)
    (amount : Decimal) : TransferOutcome :=
  match env.beginErr with
  | some e => ⟨.error (.plain ("failed to begin transaction: " ++ e)), db, [.begin]⟩
  | none =>
    let tx := db.Begin
    match lockAccounts tx.work env sourceAccountID destAccountID with
    | (.error err, locks) => ⟨.error err, tx.Rollback, .begin :: locks⟩
    | (.ok (sourceBalance, destBalance), locks) =>
      if Decimal.LessThan sourceBalance amount then
        ⟨.error (.code ErrInsufficientFunds), tx.Rollback, .begin :: locks⟩
      else
        match env.debitErr with
        | some e =>
          ⟨.error (.plain ("failed to debit source account: " ++ e)), tx.Rollback,
            .begin :: locks ++ [.updateBalanceSub sourceAccountID amount]⟩
        | none =>
          let tx1 := tx.Exec fun w => updateBalance w sourceAccountID (fun b => b - amount) env.now
          match env.creditErr with
          | some e =>
            ⟨.error (.plain ("failed to credit destination account: " ++ e)), tx1.Rollback,
              .begin :: locks ++ [.updateBalanceSub sourceAccountID amount,
                .updateBalanceAdd destAccountID amount]⟩
          | none =>
            let tx2 := tx1.Exec fun w => updateBalance w destAccountID (fun b => b + amount) env.now
            match env.insertErr with
            | some e =>
              ⟨.error (.plain ("failed to create transfer record: " ++ e)), tx2.Rollback,
                .begin :: locks ++ [.updateBalanceSub sourceAccountID amount,
                  .updateBalanceAdd destAccountID amount,
                  .insertTransaction sourceAccountID destAccountID amount]⟩
            | none =>
              let transferID := env.newID
              let tx3 := tx2.Exec fun w =>
                insertTransaction w transferID sourceAccountID destAccountID amount env.now
              match env.commitErr with
              | some e =>
                ⟨.error (.plain ("failed to commit transaction: " ++ e)), tx3.Rollback,
                  .begin :: locks ++ [.updateBalanceSub sourceAccountID amount,
                    .updateBalanceAdd destAccountID amount,
                    .insertTransaction sourceAccountID destAccountID amount, .commit]⟩
              | none =>
                let newSourceBalance := Decimal.Sub sourceBalance amount
                let newDestBalance := Decimal.Add destBalance amount
                let transfer : Transfer :=
                  ⟨transferID, sourceAccountID, destAccountID, amount, 0, 0⟩
                ⟨.ok (transfer, newSourceBalance, newDestBalance), tx3.Commit,
                  .begin :: locks ++ [.updateBalanceSub sourceAccountID amount,
                    .updateBalanceAdd destAccountID amount,
                    .insertTransaction sourceAccountID destAccountID amount, .commit]⟩

/-- Stored balance of an account, `none` when there is no row with this id. -/
def DB.balance (db : DB) (id : Int) : Option Decimal := (db.accounts id).map (·.balance)

/-- The ids of the locking reads in a statement log, in the order sent. -/
def lockRequests : List Stmt → List Int
  | [] => []
  | .selectBalanceForUpdate id :: rest => id :: lockRequests rest
  | _ :: rest => lockRequests rest

/-! ## service/transactions -/

/-- Struct `config.ApplicationConfig`; a field is `true` when the pointer is not nil. -/
structure ApplicationConfig where
  AccountRepository : Bool
  TransferRepository : Bool

/-- Value stored in the request context under a key. -/
inductive ContextValue where
  | config (appConfig : ApplicationConfig)
  | other

/-- The parts of `*gin.Context` the services read: the value under key `appConfig`
(`none` when the key is absent) and the path parameter `account_id`. -/
structure GinContext where
  appConfig : Option ContextValue
  account_id : String

/-- Context as the router of `api/router.go` builds it. -/
def GinContext.routed (account_id : String) : GinContext :=
  ⟨some (.config ⟨true, true⟩), account_id⟩

/-- Struct `transactions.TransferRequest`. -/
structure TransferRequest where
  SourceAccountID : Int
  DestinationAccountID : Int
  Amount : String

/-- Struct `transactions.TransferResponse`. -/
structure TransferResponse where
  TransactionID : Int
  Status : String
  SourceBalance : String
  DestinationBalance : String
  Amount : String
  CreatedAt : String
deriving DecidableEq

/-- Method `TransferRequest.ValidateRequest`; `none` is the nil error. -/
def TransferRequest.ValidateRequest (lib : Extern) (req : TransferRequest) : Option GoError :=
  if req.SourceAccountID = req.DestinationAccountID then
    some (.code ErrSameAccountTransfer)
  else
    match lib.NewFromString req.Amount with
    | .error e => some (.code (NewWithMsg ErrInvalidParams ("invalid amount format: " ++ e)))
    | .ok amount =>
      if Decimal.IsNegative amount || Decimal.IsZero amount then
        some (.code (NewWithMsg ErrInvalidParams "amount must be positive"))
      else
        none

/-- Method `TransferRequest.ToResponse`; `now` is the reading of `time.Now()`. -/
def TransferRequest.ToResponse (lib : Extern) (now : Nat) (req : TransferRequest)
    (transactionID : Int) (sourceBalance destBalance : Decimal) : TransferResponse :=
  { TransactionID := transactionID
    Status := "COMPLETED"
    SourceBalance := lib.DecimalString sourceBalance
    DestinationBalance := lib.DecimalString destBalance
    Amount := req.Amount
    CreatedAt := lib.FormatRFC3339 now }

/-- Function `getTransferRepo`. -/
def getTransferRepo (c : GinContext) : Except GoError Unit :=
  match c.appConfig with
  | none => .error (.code (NewWithMsg ErrSystem "internal configuration error"))
  | some .other => .error (.code (NewWithMsg ErrSystem "internal configuration error"))
  | some (.config appConfig) =>
    if appConfig.TransferRepository then .ok ()
    else .error (.code (NewWithMsg ErrSystem "internal configuration error"))

/-- Result of a service call: the returned values, the committed database afterwards and
the statements that were sent to the database. -/
structure ServiceOutcome (α : Type) where
  result : Except GoError α
  db : DB
  trace : List Stmt

/-- Function `transactions.CreateTransfer`. -/
def CreateTransfer (lib : Extern) (c : GinContext) (now : Nat) (db : DB) (env : TxEnv)
    (req : TransferRequest) : ServiceOutcome TransferResponse :=
  match req.ValidateRequest lib with
  | some err => ⟨.error err, db, []⟩
  | none =>
    match getTransferRepo c with
    | .error err => ⟨.error err, db, []⟩
    | .ok _ =>
      match lib.NewFromString req.Amount with
      | .error _ => ⟨.error (.code (NewWithMsg ErrInvalidParams "invalid amount format")), db, []⟩
      | .ok amount =>
        let out := ProcessTransfer db env req.SourceAccountID req.DestinationAccountID amount
        match out.result with
        | .error err => ⟨.error err, out.db, out.trace⟩
        | .ok (transfer, sourceBalance, destBalance) =>
          ⟨.ok (req.ToResponse lib now transfer.ID sourceBalance destBalance), out.db, out.trace⟩

/-! ## storage/account_repository.go and service/account -/

/-- Function `strings.Contains`. -/
def stringsContains (s substr : String) : Bool := decide (substr.toList <:+: s.toList)

/-- Text of the error the database raises for a second row with an existing primary key;
it carries the SQLSTATE of a unique violation. -/
def uniqueViolation : String :=
  "ERROR: duplicate key value violates unique constraint (SQLSTATE 23505)"

/-- Method `AccountRepository.CreateAccount`; `driverErr` is the text of a driver error
that is not caused by the table contents. -/
def AccountRepository.CreateAccount (db : DB) (driverErr : Option String) (acc : Account) :
    Except GoError Bool × DB :=
  let exec : Option String × DB :=
    match driverErr with
    | some e => (some e, db)
    | none =>
      match db.accounts acc.ID with
      | some _ => (some uniqueViolation, db)
      | none =>
        (none, { db with
          accounts := fun k =>
            if k = acc.ID then some ⟨acc.InitialBalance, acc.CreatedAt, acc.UpdatedAt⟩
            else db.accounts k })
  match exec with
  | (some e, db1) =>
    if stringsContains e "23505" then (.ok false, db1)
    else (.error (.plain ("failed to create account: " ++ e)), db1)
  | (none, db1) => (.ok true, db1)

/-- Struct `account.CreateAccountRequest`. -/
structure CreateAccountRequest where
  AccountID : Int
  InitialBalance : String

/-- Method `CreateAccountRequest.ToAccount`; `now` is the reading of `time.Now()`. -/
def CreateAccountRequest.ToAccount (lib : Extern) (now : Nat) (req : CreateAccountRequest) :
    Except GoError Account :=
  match lib.NewFromString req.InitialBalance with
  | .error e => .error (.plain e)
  | .ok balance =>
    if Decimal.IsNegative balance then .error (.code ErrNegativeBalance)
    else .ok ⟨req.AccountID, balance, now, now⟩

/-- Function `getRepo` of package `account`. -/
def getRepo (c : GinContext) : Except GoError Unit :=
  match c.appConfig with
  | none => .error (.code (NewWithMsg ErrSystem "internal configuration error"))
  | some .other => .error (.code (NewWithMsg ErrSystem "internal configuration error"))
  | some (.config appConfig) =>
    if appConfig.AccountRepository then .ok ()
    else .error (.code (NewWithMsg ErrSystem "internal configuration error"))

/-- Function `account.CreateAccount`; the success value `CreateAccountResponse` is the
empty struct. -/
def CreateAccount (lib : Extern) (c : GinContext) (now : Nat) (db : DB)
    (driverErr : Option String) (req : CreateAccountRequest) : ServiceOutcome Unit :=
  match req.ToAccount lib now with
  | .error err => ⟨.error err, db, []⟩
  | .ok account =>
    match getRepo c with
    | .error err => ⟨.error err, db, []⟩
    | .ok _ =>
      match AccountRepository.CreateAccount db driverErr account with
      | (.error (.plain e), db1) =>
        ⟨.error (.code (NewWithMsg ErrSystem ("database error: " ++ e))), db1,
          [.insertAccount account.ID]⟩
      | (.error (.code e), db1) =>
        ⟨.error (.code (NewWithMsg ErrSystem ("database error: " ++ e.Msg))), db1,
          [.insertAccount account.ID]⟩
      | (.ok false, db1) => ⟨.error (.code ErrAccountExists), db1, [.insertAccount account.ID]⟩
      | (.ok true, db1) => ⟨.ok (), db1, [.insertAccount account.ID]⟩

/-! ## Sequences of service calls -/

/-- One call of the service layer together with everything it reads from outside. -/
inductive Call where
  | createAccount (c : GinContext) (now : Nat) (driverErr : Option String)
      (req : CreateAccountRequest)
  | createTransfer (c : GinContext) (now : Nat) (env : TxEnv) (req : TransferRequest)

/-- The committed database after one call. -/
def Call.exec (lib : Extern) (db : DB) : Call → DB
  | .createAccount c now driverErr req => (CreateAccount lib c now db driverErr req).db
  | .createTransfer c now env req => (CreateTransfer lib c now db env req).db

/-- The committed database after a sequence of calls executed one after another. -/
def runCalls (lib : Extern) (db : DB) (calls : List Call) : DB :=
  calls.foldl (Call.exec lib) db

/-- Every stored balance is at least zero. -/
def DB.NonNegative (db : DB) : Prop :=
  ∀ id r, db.accounts id = some r → 0 ≤ r.balance

/-- Database holding the listed accounts `(id, balance)`, all created at time `0`, and no
transfer record. -/
def DB.ofList (rows : List (Int × Decimal)) : DB :=
  ⟨fun k => (rows.lookup k).map fun b => ⟨b, 0, 0⟩, []⟩

/-- The database a committed transfer leaves behind. -/
def committed (db : DB) (env : TxEnv) (src dst : Int) (amount : Decimal) : DB :=
  insertTransaction
    (updateBalance (updateBalance db src (fun b => b - amount) env.now) dst
      (fun b => b + amount) env.now)
    env.newID src dst amount env.now

/-- The database serves `Begin` and both locking reads. -/
def TxEnv.locksServed (env : TxEnv) : Prop :=
  env.beginErr = none ∧ env.lockFirstErr = none ∧ env.lockSecondErr = none

/-- The database serves every statement of the transaction. -/
def TxEnv.allServed (env : TxEnv) : Prop :=
  env.locksServed ∧ env.debitErr = none ∧ env.creditErr = none ∧ env.insertErr = none ∧
    env.commitErr = none

/-- Arguments of one `ProcessTransfer` call together with what the database answers. -/
structure TransferCall where
  env : TxEnv
  source : Int
  dest : Int
  amount : Decimal

/-- Calls of `ProcessTransfer` executed one after another, each on the database the
previous one left: the returned values in order, and the final database. -/
def runTransfers (db : DB) :
    List TransferCall → List (Except GoError (Transfer × Decimal × Decimal)) × DB
  | [] => ([], db)
  | c :: cs =>
    let out := ProcessTransfer db c.env c.source c.dest c.amount
    let rest := runTransfers out.db cs
    (out.result :: rest.1, rest.2)

/-! ## codes/codes.go: code and message of an error -/

/-- Method `Error` of a Go error. -/
def GoError.Error : GoError → String
  | .code e => e.Msg
  | .plain msg => msg

/-- Function `codes.GetCode`; `none` is the nil error. -/
def GetCode : Option GoError → Int
  | none => Success.Code
  | some (.code cerr) => cerr.Code
  | some (.plain _) => ErrSystem.Code

/-- Function `codes.GetMsg`; `none` is the nil error. -/
def GetMsg : Option GoError → String
  | none => Success.Msg
  | some (.code cerr) => cerr.Msg
  | some (.plain _) => ErrSystem.Msg

/-! ## rest_handler/response.go -/

def StatusOK : Nat := 200
def StatusBadRequest : Nat := 400
def StatusNotFound : Nat := 404
def StatusRequestTimeout : Nat := 408
def StatusConflict : Nat := 409
def StatusInternalServerError : Nat := 500

/-- Struct `rest_handler.Response` as `PackError` fills it (`Data` is left empty). -/
structure Response where
  Code : Int
  Message : String
deriving DecidableEq

/-- Function `mapErrorToStatusCode`; `none` is the nil error. -/
def mapErrorToStatusCode : Option GoError → Nat
  | none => StatusInternalServerError
  | some (.plain _) => StatusInternalServerError
  | some (.code codeErr) =>
    if codeErr.Code = ErrSystem.Code then StatusInternalServerError
    else if codeErr.Code = ErrInvalidParams.Code then StatusBadRequest
    else if codeErr.Code = ErrTimeout.Code then StatusRequestTimeout
    else if codeErr.Code = ErrNegativeBalance.Code then StatusBadRequest
    else if codeErr.Code = ErrAccountExists.Code then StatusConflict
    else if codeErr.Code = ErrInvalidAccountID.Code then StatusBadRequest
    else if codeErr.Code = ErrAccountNotFound.Code then StatusNotFound
    else if codeErr.Code = ErrSameAccountTransfer.Code then StatusBadRequest
    else if codeErr.Code = ErrInsufficientFunds.Code then StatusBadRequest
    else if codeErr.Code = ErrSourceAccountNotFound.Code then StatusNotFound
    else if codeErr.Code = ErrDestinationAccountNotFound.Code then StatusNotFound
    else StatusInternalServerError

/-- Method `StdRespAdapter.PackError`: the HTTP status and the JSON body sent to the
caller. -/
def PackError (err : Option GoError) : Nat × Response :=
  (mapErrorToStatusCode err, ⟨GetCode err, GetMsg err⟩)

/-! ## storage/account_repository.go and service/account: reading an account -/

/-- Query of `AccountRepository.GetAccountByID` followed by `Scan`. -/
def selectAccount (db : DB) (driverErr : Option String) (accountID : Int) :
    RowResult Account :=
  match driverErr with
  | some e => .failed e
  | none =>
    match db.accounts accountID with
    | some r => .row ⟨accountID, r.balance, r.created_at, r.updated_at⟩
    | none => .noRows

/-- Method `AccountRepository.GetAccountByID`; `.ok none` is the return `nil, nil`. -/
def AccountRepository.GetAccountByID (db : DB) (driverErr : Option String)
    (accountID : Int) : Except GoError (Option Account) :=
  match selectAccount db driverErr accountID with
  | .noRows => .ok none
  | .failed e => .error (.plain ("failed to get account: " ++ e))
  | .row acc => .ok (some acc)

/-- Struct `account.GetAccountResponse`. -/
structure GetAccountResponse where
  AccountID : Int
  Balance : String
deriving DecidableEq

/-- Function `account.GetAccountByID`.  `Atoi` is `strconv.Atoi`: the integer read from
the string, or the text of its error. -/
def GetAccountByID (lib : Extern) (Atoi : String → Except String Int) (c : GinContext)
    (db : DB) (driverErr : Option String) : ServiceOutcome GetAccountResponse :=
  match Atoi c.account_id with
  | .error _ => ⟨.error (.code ErrInvalidAccountID), db, []⟩
  | .ok accountID =>
    if accountID ≤ 0 then ⟨.error (.code ErrInvalidAccountID), db, []⟩
    else
      match getRepo c with
      | .error err => ⟨.error err, db, []⟩
      | .ok _ =>
        match AccountRepository.GetAccountByID db driverErr accountID with
        | .error err =>
          ⟨.error (.code (NewWithMsg ErrSystem ("database error: " ++ err.Error))), db,
            [.selectAccount accountID]⟩
        | .ok none => ⟨.error (.code ErrAccountNotFound), db, [.selectAccount accountID]⟩
        | .ok (some account) =>
          ⟨.ok ⟨account.ID, lib.DecimalString account.InitialBalance⟩, db,
            [.selectAccount accountID]⟩

/-- A reader of decimal integer numerals in the manner of `strconv.Atoi` (optional sign,
then digits, the value within the 64-bit range of Go `int`), used to run `GetAccountByID`
on concrete path parameters. -/
def parseInt (s : String) : Except String Int :=
  let signed : Bool × List Char :=
    match s.toList with
    | '-' :: rest => (true, rest)
    | '+' :: rest => (false, rest)
    | cs => (false, cs)
  if signed.2.isEmpty then .error ("parsing " ++ s ++ ": invalid syntax")
  else
    match digitsValue 0 signed.2 with
    | some n =>
      if signed.1 then
        if n ≤ 9223372036854775808 then .ok (-(n : Int))
        else .error ("parsing " ++ s ++ ": value out of range")
      else
        if n ≤ 9223372036854775807 then .ok (n : Int)
        else .error ("parsing " ++ s ++ ": value out of range")
    | none => .error ("parsing " ++ s ++ ": invalid syntax")

/-! ## rest_handler/handler.go: the request of `POST /accounts` -/

/-- The parts of package go-playground/validator that `createHandleReqArg` uses on a
`CreateAccountRequest`: the test behind the tag `numeric`, and the text of the error
`validate.Struct` returns for a rejected request. -/
structure Validator where
  numeric : String → Bool
  errorText : CreateAccountRequest → String

/-- Verdict of `validate.Struct` on a `CreateAccountRequest`, from the tags of the struct:
`required,min=0` on `AccountID` (`required` rejects the zero value, `min=0` a value below
0) and `required,numeric` on `InitialBalance` (`required` rejects the empty string). -/
def CreateAccountRequest.validateStruct (v : Validator) (req : CreateAccountRequest) : Bool :=
  (decide (req.AccountID ≠ 0) && decide (0 ≤ req.AccountID)) &&
    (decide (req.InitialBalance ≠ "") && v.numeric req.InitialBalance)

/-- Functions `createHandleReqArg` and `handleRequest` for the handler of `POST /accounts`,
from the decoded request body on: the struct is validated by its tags, then
`account.CreateAccount` is called. -/
def handleCreateAccount (lib : Extern) (v : Validator) (c : GinContext) (now : Nat) (db : DB)
    (driverErr : Option String) (req : CreateAccountRequest) : ServiceOutcome Unit :=
  if req.validateStruct v then CreateAccount lib c now db driverErr req
  else
    ⟨.error (.code (NewWithMsg ErrInvalidParams ("validator param err: " ++ v.errorText req))),
      db, []⟩

/-- The string is not empty and holds decimal digits only. -/
def allDigits (cs : List Char) : Bool := !cs.isEmpty && cs.all Char.isDigit

/-- The test of the validator tag `numeric`: an optional sign, digits, and optionally a
point followed by digits. -/
def numericTag (s : String) : Bool :=
  let body : List Char :=
    match s.toList with
    | '-' :: rest => rest
    | '+' :: rest => rest
    | cs => cs
  let intPart := body.takeWhile (fun c => c != '.')
  let rest := body.dropWhile (fun c => c != '.')
  allDigits intPart && (rest.isEmpty || allDigits (rest.drop 1))

/-- One concrete validator: the tag `numeric` as `numericTag`, and a fixed error text. -/
def Validator.sample : Validator :=
  ⟨numericTag, fun _ => "Field validation failed"⟩

/-! ## Sequences of account creations -/

/-- Arguments of one `account.CreateAccount` call together with what it reads from
outside. -/
structure CreateAccountCall where
  c : GinContext
  now : Nat
  driverErr : Option String
  req : CreateAccountRequest

/-- Calls of `account.CreateAccount` executed one after another, each on the database the
previous one left: the returned values in order, and the final database. -/
def runCreateAccounts (lib : Extern) (db : DB) :
    List CreateAccountCall → List (Except GoError Unit) × DB
  | [] => ([], db)
  | call :: calls =>
    let out := CreateAccount lib call.c call.now db call.driverErr call.req
    let rest := runCreateAccounts lib out.db calls
    (out.result :: rest.1, rest.2)

/-- The text `m` is the one `ProcessTransfer` gives to the driver error of one of its
statements in the environment `env`. -/
def TxEnv.failureText (env : TxEnv) (m : String) : Prop :=
  (∃ e, env.beginErr = some e ∧ m = "failed to begin transaction: " ++ e) ∨
  (∃ e, (env.lockFirstErr = some e ∨ env.lockSecondErr = some e) ∧
    m = "failed to lock source account: " ++ e) ∨
  (∃ e, env.debitErr = some e ∧ m = "failed to debit source account: " ++ e) ∨
  (∃ e, env.creditErr = some e ∧ m = "failed to credit destination account: " ++ e) ∨
  (∃ e, env.insertErr = some e ∧ m = "failed to create transfer record: " ++ e) ∨
  (∃ e, env.commitErr = some e ∧ m = "failed to commit transaction: " ++ e)

/-! ## Sums over a sequence of transfers -/

/-- Sum of the amounts of the calls whose destination is `id`. -/
def received (id : Int) : List TransferCall → Decimal
  | [] => 0
  | c :: cs => (if c.dest = id then c.amount else 0) + received id cs

/-- Sum of the amounts of the calls whose source is `id`. -/
def sent (id : Int) : List TransferCall → Decimal
  | [] => 0
  | c :: cs => (if c.source = id then c.amount else 0) + sent id cs

/-- Number of the calls that go from `src` to `dst`. -/
def transfersFromTo (src dst : Int) (calls : List TransferCall) : Nat :=
  calls.countP fun c => decide (c.source = src ∧ c.dest = dst)

/-- The call returned the error with text `m` that is not a `CodeError`, and `PackError`
sends that error with status 500, code 1 and the message `system error`. -/
def returnsSystemError {α : Type} (result : Except GoError α) (m : String) : Prop :=
  result = .error (.plain m) ∧ PackError (some (.plain m)) = (500, ⟨1, "system error"⟩)

/-! ## Basic facts about the database operations -/

theorem selectBalanceForUpdate_row {db : DB} {driverErr : Option String} {id : Int}
    {b : Decimal} (h : selectBalanceForUpdate db driverErr id = .row b) :
    driverErr = none ∧ ∃ r, db.accounts id = some r ∧ r.balance = b := by
  unfold selectBalanceForUpdate at h
  cases driverErr with
  | some e => simp at h
  | none =>
    cases hr : db.accounts id with
    | none => simp [hr] at h
    | some r =>
      simp only [hr] at h
      injection h with h
      exact ⟨rfl, r, rfl, h⟩

theorem selectBalanceForUpdate_served {db : DB} {id : Int} {r : AccountRow}
    (h : db.accounts id = some r) : selectBalanceForUpdate db none id = .row r.balance := by
  simp [selectBalanceForUpdate, h]

theorem selectBalanceForUpdate_missing {db : DB} {id : Int}
    (h : db.accounts id = none) : selectBalanceForUpdate db none id = .noRows := by
  simp [selectBalanceForUpdate, h]

/-- When both locking reads return a row, they returned the stored balances. -/
theorem lockAccounts_ok {db : DB} {env : TxEnv} {src dst : Int} {sb tb : Decimal}
    {locks : List Stmt} (h : lockAccounts db env src dst = (.ok (sb, tb), locks)) :
    ∃ rs rd, db.accounts src = some rs ∧ db.accounts dst = some rd ∧
      rs.balance = sb ∧ rd.balance = tb := by
  unfold lockAccounts at h
  split at h
  · split at h
    · simp at h
    · simp at h
    · rename_i sourceBalance h1
      split at h
      · simp at h
      · simp at h
      · rename_i destBalance h2
        obtain ⟨-, rs, hrs, hbs⟩ := selectBalanceForUpdate_row h1
        obtain ⟨-, rd, hrd, hbd⟩ := selectBalanceForUpdate_row h2
        simp only [Prod.mk.injEq, Except.ok.injEq] at h
        exact ⟨rs, rd, hrs, hrd, by rw [hbs, h.1.1], by rw [hbd, h.1.2]⟩
  · split at h
    · simp at h
    · simp at h
    · rename_i destBalance h1
      split at h
      · simp at h
      · simp at h
      · rename_i sourceBalance h2
        obtain ⟨-, rd, hrd, hbd⟩ := selectBalanceForUpdate_row h1
        obtain ⟨-, rs, hrs, hbs⟩ := selectBalanceForUpdate_row h2
        simp only [Prod.mk.injEq, Except.ok.injEq] at h
        exact ⟨rs, rd, hrs, hrd, by rw [hbs, h.1.1], by rw [hbd, h.1.2]⟩

/-- Anatomy of a successful `ProcessTransfer`. -/
theorem ProcessTransfer_ok {db : DB} {env : TxEnv} {src dst : Int} {amount : Decimal}
    {t : Transfer} {nsb ndb : Decimal}
    (h : (ProcessTransfer db env src dst amount).result = .ok (t, nsb, ndb)) :
    ∃ rs rd, db.accounts src = some rs ∧ db.accounts dst = some rd ∧
      ¬ rs.balance < amount ∧
      (ProcessTransfer db env src dst amount).db = committed db env src dst amount ∧
      nsb = rs.balance - amount ∧ ndb = rd.balance + amount ∧
      t = ⟨env.newID, src, dst, amount, 0, 0⟩ := by
  rcases hl : lockAccounts db env src dst with ⟨_ | ⟨sb, tb⟩, locks⟩
  · rcases hb : env.beginErr with _ | e <;> simp [ProcessTransfer, hl, hb] at h
  · obtain ⟨rs, rd, hrs, hrd, hbs, hbd⟩ := lockAccounts_ok hl
    rcases hb : env.beginErr with _ | e0
    · rcases h1 : env.debitErr with _ | e1
      · rcases h2 : env.creditErr with _ | e2
        · rcases h3 : env.insertErr with _ | e3
          · rcases h4 : env.commitErr with _ | e4
            · by_cases hlt : Decimal.LessThan sb amount = true
              · simp [ProcessTransfer, hl, hb, hlt] at h
              · simp only [ProcessTransfer, DB.Begin, Tx.Exec, Tx.Commit, hl, hb, hlt, h1, h2,
                  h3, h4, Bool.false_eq_true, if_false, Except.ok.injEq, Prod.mk.injEq] at h ⊢
                refine ⟨rs, rd, hrs, hrd, ?_, ?_, ?_, ?_, h.1.symm⟩
                · simpa [Decimal.LessThan, hbs] using hlt
                · simp [committed]
                · rw [hbs, ← h.2.1]; rfl
                · rw [hbd, ← h.2.2]; rfl
            · by_cases hlt : Decimal.LessThan sb amount = true <;>
                simp [ProcessTransfer, hl, hb, hlt, h1, h2, h3, h4] at h
          · by_cases hlt : Decimal.LessThan sb amount = true <;>
              simp [ProcessTransfer, hl, hb, hlt, h1, h2, h3] at h
        · by_cases hlt : Decimal.LessThan sb amount = true <;>
            simp [ProcessTransfer, hl, hb, hlt, h1, h2] at h
      · by_cases hlt : Decimal.LessThan sb amount = true <;>
          simp [ProcessTransfer, hl, hb, hlt, h1] at h
    · simp [ProcessTransfer, hb] at h

/-- Every failing `ProcessTransfer` leaves the committed database as it was. -/
theorem ProcessTransfer_error {db : DB} {env : TxEnv} {src dst : Int} {amount : Decimal}
    {e : GoError} (h : (ProcessTransfer db env src dst amount).result = .error e) :
    (ProcessTransfer db env src dst amount).db = db := by
  rcases hl : lockAccounts db env src dst with ⟨_ | ⟨sb, tb⟩, locks⟩
  · rcases hb : env.beginErr with _ | e <;> simp [ProcessTransfer, hl, hb]
  · rcases hb : env.beginErr with _ | e0
    · rcases h1 : env.debitErr with _ | e1
      · rcases h2 : env.creditErr with _ | e2
        · rcases h3 : env.insertErr with _ | e3
          · rcases h4 : env.commitErr with _ | e4
            · by_cases hlt : Decimal.LessThan sb amount = true
              · simp [ProcessTransfer, hl, hb, hlt]
              · simp [ProcessTransfer, hl, hb, hlt, h1, h2, h3, h4] at h
            · by_cases hlt : Decimal.LessThan sb amount = true <;>
                simp [ProcessTransfer, hl, hb, hlt, h1, h2, h3, h4]
          · by_cases hlt : Decimal.LessThan sb amount = true <;>
              simp [ProcessTransfer, hl, hb, hlt, h1, h2, h3]
        · by_cases hlt : Decimal.LessThan sb amount = true <;>
            simp [ProcessTransfer, hl, hb, hlt, h1, h2]
      · by_cases hlt : Decimal.LessThan sb amount = true <;>
          simp [ProcessTransfer, hl, hb, hlt, h1]
    · simp [ProcessTransfer, hb]

theorem committed_balance_source {db : DB} {env : TxEnv} {src dst : Int} {amount : Decimal}
    {rs : AccountRow} (hne : src ≠ dst) (hs : db.accounts src = some rs) :
    (committed db env src dst amount).balance src = some (rs.balance - amount) := by
  simp [committed, insertTransaction, updateBalance, DB.balance, hne, hs]

theorem committed_balance_dest {db : DB} {env : TxEnv} {src dst : Int} {amount : Decimal}
    {rd : AccountRow} (hne : src ≠ dst) (hd : db.accounts dst = some rd) :
    (committed db env src dst amount).balance dst = some (rd.balance + amount) := by
  simp [committed, insertTransaction, updateBalance, DB.balance, Ne.symm hne, hd]

theorem committed_accounts_other {db : DB} {env : TxEnv} {src dst k : Int} {amount : Decimal}
    (h1 : k ≠ src) (h2 : k ≠ dst) :
    (committed db env src dst amount).accounts k = db.accounts k := by
  simp [committed, insertTransaction, updateBalance, h1, h2]

/-! ## Conservation -/

/-- C1: when `ProcessTransfer` between two distinct existing accounts succeeds, the stored
balance of the source afterwards is its balance before minus the amount, the stored balance
of the destination is its balance before plus the amount, and the sum of the two stored
balances is the same as before. -/
theorem C1_transfer_conserves (db : DB) (env : TxEnv) (source dest : Int)
    (amount bs bd : Decimal) (t : Transfer) (nsb ndb : Decimal)
    (hne : source ≠ dest)
    (hs : db.balance source = some bs) (hd : db.balance dest = some bd)
    (hok : (ProcessTransfer db env source dest amount).result = .ok (t, nsb, ndb)) :
    ∃ as ad,
      (ProcessTransfer db env source dest amount).db.balance source = some as ∧
      (ProcessTransfer db env source dest amount).db.balance dest = some ad ∧
      as = bs - amount ∧ ad = bd + amount ∧ as + ad = bs + bd := by
  obtain ⟨rs, rd, hrs, hrd, -, hdb, -, -, -⟩ := ProcessTransfer_ok hok
  have hbs : rs.balance = bs := by simpa [DB.balance, hrs] using hs
  have hbd : rd.balance = bd := by simpa [DB.balance, hrd] using hd
  refine ⟨bs - amount, bd + amount, ?_, ?_, rfl, rfl, by ring⟩
  · rw [hdb, committed_balance_source hne hrs, hbs]
  · rw [hdb, committed_balance_dest hne hrd, hbd]

/-- Instance of C1: 100.50 moved from account 1 (1000.00) to account 2 (500.00). -/
theorem C1_transfer_conserves_witness :
    ∃ as ad,
      (ProcessTransfer (DB.ofList [(1, 1000), (2, 500)]) (TxEnv.healthy 7 1) 1 2
        (201 / 2)).db.balance 1 = some as ∧
      (ProcessTransfer (DB.ofList [(1, 1000), (2, 500)]) (TxEnv.healthy 7 1) 1 2
        (201 / 2)).db.balance 2 = some ad ∧
      as = 1000 - 201 / 2 ∧ ad = 500 + 201 / 2 ∧ as + ad = 1000 + 500 :=
  C1_transfer_conserves (DB.ofList [(1, 1000), (2, 500)]) (TxEnv.healthy 7 1) 1 2 (201 / 2)
    1000 500 ⟨1, 1, 2, 201 / 2, 0, 0⟩ (1000 - 201 / 2) (500 + 201 / 2) (by decide)
    (by simp [DB.balance, DB.ofList, List.lookup])
    (by simp [DB.balance, DB.ofList, List.lookup])
    (by
      simp [ProcessTransfer, lockAccounts, selectBalanceForUpdate, TxEnv.healthy, DB.ofList,
        List.lookup, Decimal.LessThan, Decimal.Sub, Decimal.Add]
      norm_num)

/-! ## Non-negative balances -/

/-- A request that passes `ValidateRequest` has distinct ids and an amount that parses to
a positive decimal. -/
theorem ValidateRequest_none {lib : Extern} {req : TransferRequest}
    (h : req.ValidateRequest lib = none) :
    req.SourceAccountID ≠ req.DestinationAccountID ∧
      ∃ amount, lib.NewFromString req.Amount = .ok amount ∧ 0 < amount := by
  unfold TransferRequest.ValidateRequest at h
  by_cases hid : req.SourceAccountID = req.DestinationAccountID
  · simp [hid] at h
  · refine ⟨hid, ?_⟩
    rcases hp : lib.NewFromString req.Amount with e | amount
    · simp [hid, hp] at h
    · refine ⟨amount, rfl, ?_⟩
      simp only [hid, hp, if_false] at h
      by_cases hneg : (Decimal.IsNegative amount || Decimal.IsZero amount) = true
      · simp [hneg] at h
      · simp only [Decimal.IsNegative, Decimal.IsZero, Bool.or_eq_true, decide_eq_true_eq,
          not_or, not_lt] at hneg
        exact lt_of_le_of_ne hneg.1 (Ne.symm hneg.2)

theorem committed_nonNegative {db : DB} {env : TxEnv} {src dst : Int} {amount : Decimal}
    {rs : AccountRow} (hdb : db.NonNegative) (hne : src ≠ dst)
    (hs : db.accounts src = some rs) (hfunds : ¬ rs.balance < amount) (hpos : 0 < amount) :
    (committed db env src dst amount).NonNegative := by
  intro k r hk
  by_cases h1 : k = src
  · subst h1
    simp only [committed, insertTransaction, updateBalance, hne, if_true, if_false, hs,
      Option.map_some', Option.some.injEq] at hk
    rw [← hk]
    simpa using not_lt.mp hfunds
  · by_cases h2 : k = dst
    · subst h2
      rcases hd : db.accounts k with _ | rd
      · simp [committed, insertTransaction, updateBalance, h1, hd] at hk
      · simp only [committed, insertTransaction, updateBalance, h1, if_true, if_false, hd,
          Option.map_some', Option.some.injEq] at hk
        rw [← hk]
        have := hdb k rd hd
        simp only
        linarith
    · rw [committed_accounts_other h1 h2] at hk
      exact hdb k r hk

theorem CreateTransfer_nonNegative (lib : Extern) (c : GinContext) (now : Nat) (db : DB)
    (env : TxEnv) (req : TransferRequest) (hdb : db.NonNegative) :
    (CreateTransfer lib c now db env req).db.NonNegative := by
  unfold CreateTransfer
  rcases hv : req.ValidateRequest lib with _ | err
  · obtain ⟨hne, amount, hp, hpos⟩ := ValidateRequest_none hv
    rcases hr : getTransferRepo c with err | u
    · simpa using hdb
    · simp only [hp]
      rcases ho : (ProcessTransfer db env req.SourceAccountID req.DestinationAccountID
          amount).result with e | ⟨t, nsb, ndb⟩
      · simp only [ho]
        rw [ProcessTransfer_error ho]
        exact hdb
      · simp only [ho]
        obtain ⟨rs, rd, hrs, -, hfunds, hcommit, -, -, -⟩ := ProcessTransfer_ok ho
        rw [hcommit]
        exact committed_nonNegative hdb hne hrs hfunds hpos
  · simpa using hdb

theorem CreateAccount_nonNegative (lib : Extern) (c : GinContext) (now : Nat) (db : DB)
    (driverErr : Option String) (req : CreateAccountRequest) (hdb : db.NonNegative) :
    (CreateAccount lib c now db driverErr req).db.NonNegative := by
  unfold CreateAccount
  rcases ha : req.ToAccount lib now with err | account
  · simpa using hdb
  · rcases hr : getRepo c with err | u
    · simpa using hdb
    · have hbal : 0 ≤ account.InitialBalance := by
        unfold CreateAccountRequest.ToAccount at ha
        rcases hp : lib.NewFromString req.InitialBalance with e | balance
        · simp [hp] at ha
        · by_cases hneg : Decimal.IsNegative balance = true
          · simp [hp, hneg] at ha
          · simp only [hp, hneg, Bool.false_eq_true, if_false, Except.ok.injEq] at ha
            rw [← ha]
            simpa [Decimal.IsNegative] using hneg
      have hrepo : (AccountRepository.CreateAccount db driverErr account).2.NonNegative := by
        unfold AccountRepository.CreateAccount
        rcases driverErr with _ | e
        · rcases hex : db.accounts account.ID with _ | r
          · intro k r hk
            by_cases hk1 : k = account.ID
            · simp only [hk1, if_true, Option.some.injEq] at hk
              rw [← hk]
              exact hbal
            · simp only [hk1, if_false] at hk
              exact hdb k r hk
          · simp only
            split <;> exact hdb
        · simp only
          split <;> exact hdb
      simp only
      rcases hc : AccountRepository.CreateAccount db driverErr account with ⟨res, db1⟩
      rw [hc] at hrepo
      rcases res with (e | e) | (_ | _) <;> exact hrepo

theorem runCalls_nonNegative (lib : Extern) (calls : List Call) :
    ∀ db : DB, db.NonNegative → (runCalls lib db calls).NonNegative := by
  induction calls with
  | nil => intro db h; exact h
  | cons call rest ih =>
    intro db h
    simp only [runCalls, List.foldl_cons]
    apply ih
    cases call with
    | createAccount c now driverErr req => exact CreateAccount_nonNegative lib c now db driverErr req h
    | createTransfer c now env req => exact CreateTransfer_nonNegative lib c now db env req h

/-- C2: starting from the empty database, after every sequence of `CreateAccount` and
`CreateTransfer` service calls, executed one after another, each with any request, any
context and any database failure, every stored account balance is at least zero. -/
theorem C2_balances_never_negative (lib : Extern) (calls : List Call) (id : Int)
    (r : AccountRow) (h : (runCalls lib DB.empty calls).accounts id = some r) :
    0 ≤ r.balance :=
  runCalls_nonNegative lib calls DB.empty (by intro k r hk; simp [DB.empty] at hk) id r h

/-- Instance of C2: two accounts are created and 0.5 is moved; account 1 then holds
999.5. -/
theorem C2_balances_never_negative_witness :
    (runCalls Extern.sample DB.empty
      [.createAccount (GinContext.routed "") 3 none ⟨1, "1000.00"⟩,
        .createAccount (GinContext.routed "") 4 none ⟨2, "0.00"⟩,
        .createTransfer (GinContext.routed "") 5 (TxEnv.healthy 5 1) ⟨1, 2, "0.5"⟩]).accounts 1
      = some ⟨1999 / 2, 3, 5⟩ ∧ (0 : ℚ) ≤ (⟨1999 / 2, 3, 5⟩ : AccountRow).balance :=
  have h : (runCalls Extern.sample DB.empty
      [.createAccount (GinContext.routed "") 3 none ⟨1, "1000.00"⟩,
        .createAccount (GinContext.routed "") 4 none ⟨2, "0.00"⟩,
        .createTransfer (GinContext.routed "") 5 (TxEnv.healthy 5 1) ⟨1, 2, "0.5"⟩]).accounts 1
      = some ⟨1999 / 2, 3, 5⟩ := by
    simp [runCalls, Call.exec, CreateAccount, CreateTransfer, CreateAccountRequest.ToAccount,
      TransferRequest.ValidateRequest, getRepo, getTransferRepo, GinContext.routed,
      AccountRepository.CreateAccount, Extern.sample, parseDecimal, digitsValue, Char.isDigit,
      DB.empty, Decimal.IsNegative, Decimal.IsZero, ProcessTransfer, lockAccounts,
      selectBalanceForUpdate, TxEnv.healthy, Decimal.LessThan, updateBalance, insertTransaction]
    norm_num
  ⟨h, C2_balances_never_negative Extern.sample _ 1 _ h⟩

/-! ## Failure is all-or-nothing -/

/-- Every failing `CreateTransfer` leaves the committed database as it was. -/
theorem CreateTransfer_error {lib : Extern} {c : GinContext} {now : Nat} {db : DB}
    {env : TxEnv} {req : TransferRequest} {e : GoError}
    (h : (CreateTransfer lib c now db env req).result = .error e) :
    (CreateTransfer lib c now db env req).db = db := by
  unfold CreateTransfer at h ⊢
  rcases hv : req.ValidateRequest lib with _ | err
  · rcases hr : getTransferRepo c with err | u
    · rfl
    · rcases hp : lib.NewFromString req.Amount with pe | amount
      · rfl
      · rcases ho : (ProcessTransfer db env req.SourceAccountID req.DestinationAccountID
            amount).result with e1 | ⟨t, nsb, ndb⟩
        · simp only [ho]
          exact ProcessTransfer_error ho
        · simp [hv, hr, hp, ho] at h
  · rfl

/-- C3: a transfer that returns an error, whatever the error (a rejected request, a
missing account, insufficient funds, or a database failure at the begin, lock, debit,
credit, record-insert or commit step), leaves the committed database as it was: every
account balance is the same as before the call and the table of transfer records is the
same.  Stated for the service function `CreateTransfer` and for a direct call of
`ProcessTransfer`. -/
theorem C3_failed_transfer_changes_nothing (lib : Extern) (c : GinContext) (now : Nat)
    (db : DB) (env : TxEnv) (req : TransferRequest) (source dest : Int) (amount : Decimal) :
    (∀ e, (CreateTransfer lib c now db env req).result = .error e →
      (CreateTransfer lib c now db env req).db = db ∧
      (∀ id, (CreateTransfer lib c now db env req).db.balance id = db.balance id) ∧
      (CreateTransfer lib c now db env req).db.transactions = db.transactions) ∧
    (∀ e, (ProcessTransfer db env source dest amount).result = .error e →
      (ProcessTransfer db env source dest amount).db = db ∧
      (∀ id, (ProcessTransfer db env source dest amount).db.balance id = db.balance id) ∧
      (ProcessTransfer db env source dest amount).db.transactions = db.transactions) := by
  constructor
  · intro e h
    rw [CreateTransfer_error h]
    exact ⟨rfl, fun _ => rfl, rfl⟩
  · intro e h
    rw [ProcessTransfer_error h]
    exact ⟨rfl, fun _ => rfl, rfl⟩

/-- Instance of C3: the commit of a transfer of 100.50 fails after the debit, the credit
and the record insert were executed inside the transaction; nothing of it is stored. -/
theorem C3_failed_transfer_changes_nothing_witness :
    (CreateTransfer Extern.sample (GinContext.routed "") 9 (DB.ofList [(1, 1000), (2, 500)])
        ⟨none, none, none, none, none, none, some "conn closed", 9, 1⟩
        ⟨1, 2, "100.50"⟩).result
      = .error (.plain "failed to commit transaction: conn closed") ∧
    (CreateTransfer Extern.sample (GinContext.routed "") 9 (DB.ofList [(1, 1000), (2, 500)])
        ⟨none, none, none, none, none, none, some "conn closed", 9, 1⟩
        ⟨1, 2, "100.50"⟩).db = DB.ofList [(1, 1000), (2, 500)] :=
  have h : (CreateTransfer Extern.sample (GinContext.routed "") 9
        (DB.ofList [(1, 1000), (2, 500)])
        ⟨none, none, none, none, none, none, some "conn closed", 9, 1⟩
        ⟨1, 2, "100.50"⟩).result
      = .error (.plain "failed to commit transaction: conn closed") := by
    simp [CreateTransfer, TransferRequest.ValidateRequest, getTransferRepo, GinContext.routed,
      Extern.sample, parseDecimal, digitsValue, Char.isDigit, Decimal.IsNegative,
      Decimal.IsZero, ProcessTransfer, lockAccounts, selectBalanceForUpdate, DB.ofList,
      List.lookup, Decimal.LessThan]
    norm_num
  ⟨h, ((C3_failed_transfer_changes_nothing Extern.sample (GinContext.routed "") 9
    (DB.ofList [(1, 1000), (2, 500)])
    ⟨none, none, none, none, none, none, some "conn closed", 9, 1⟩ ⟨1, 2, "100.50"⟩
    1 2 (201 / 2)).1 _ h).1⟩

/-! ## Insufficient funds -/

/-- When both locking reads are served and both rows exist, the reads return the two
stored balances. -/
theorem lockAccounts_served {db : DB} {env : TxEnv} {src dst : Int} {rs rd : AccountRow}
    (h1 : env.lockFirstErr = none) (h2 : env.lockSecondErr = none)
    (hs : db.accounts src = some rs) (hd : db.accounts dst = some rd) :
    (lockAccounts db env src dst).1 = .ok (rs.balance, rd.balance) := by
  unfold lockAccounts
  by_cases hlt : src < dst <;>
    simp [hlt, h1, h2, selectBalanceForUpdate_served hs, selectBalanceForUpdate_served hd]

/-- When `Begin` and the locking reads are served and both rows exist, the call ends with
`ErrInsufficientFunds` exactly when the source balance is below the amount. -/
theorem ProcessTransfer_insufficient_iff {db : DB} {env : TxEnv} {src dst : Int}
    {amount : Decimal} {rs rd : AccountRow} (henv : env.locksServed)
    (hs : db.accounts src = some rs) (hd : db.accounts dst = some rd) :
    (ProcessTransfer db env src dst amount).result = .error (.code ErrInsufficientFunds) ↔
      rs.balance < amount := by
  obtain ⟨hb, h1, h2⟩ := henv
  have hl := lockAccounts_served h1 h2 hs hd
  rcases hlk : lockAccounts db env src dst with ⟨res, locks⟩
  rw [hlk] at hl
  simp only at hl
  subst hl
  by_cases hlt : rs.balance < amount
  · simp [ProcessTransfer, hb, hlk, Decimal.LessThan, hlt]
  · simp only [ProcessTransfer, DB.Begin, Tx.Exec, Tx.Commit, Tx.Rollback, hb, hlk,
      Decimal.LessThan, hlt, decide_False,
      Bool.false_eq_true, if_false, iff_false]
    rcases env.debitErr with _ | e1
    · rcases env.creditErr with _ | e2
      · rcases env.insertErr with _ | e3
        · rcases env.commitErr with _ | e4 <;> simp
        · simp
      · simp
    · simp

/-- A call in which every statement is served, both rows exist and the funds suffice
succeeds, returns the new balances and commits the debit, the credit and the record. -/
theorem ProcessTransfer_served {db : DB} {env : TxEnv} {src dst : Int} {amount : Decimal}
    {rs rd : AccountRow} (henv : env.allServed)
    (hs : db.accounts src = some rs) (hd : db.accounts dst = some rd)
    (hfunds : ¬ rs.balance < amount) :
    (ProcessTransfer db env src dst amount).result
        = .ok (⟨env.newID, src, dst, amount, 0, 0⟩, rs.balance - amount, rd.balance + amount) ∧
      (ProcessTransfer db env src dst amount).db = committed db env src dst amount := by
  obtain ⟨⟨hb, h1, h2⟩, h3, h4, h5, h6⟩ := henv
  have hl := lockAccounts_served h1 h2 hs hd
  rcases hlk : lockAccounts db env src dst with ⟨res, locks⟩
  rw [hlk] at hl
  simp only at hl
  subst hl
  simp [ProcessTransfer, hb, hlk, Decimal.LessThan, hfunds, h3, h4, h5, h6, committed,
    Decimal.Sub, Decimal.Add]

theorem balance_eq_some {db : DB} {id : Int} {b : Decimal} :
    db.balance id = some b ↔ ∃ r, db.accounts id = some r ∧ r.balance = b := by
  unfold DB.balance
  cases db.accounts id <;> simp

/-- Equal transfers executed one after another out of an account that holds enough for
all of them: all succeed and move the total. -/
theorem runTransfers_repeat {src dst : Int} {x : Decimal} (hne : src ≠ dst) (hx : 0 ≤ x) :
    ∀ (calls : List TransferCall) (db : DB) (bs bd : Decimal),
      (∀ c ∈ calls, c.env.allServed ∧ c.source = src ∧ c.dest = dst ∧ c.amount = x) →
      db.balance src = some bs → db.balance dst = some bd →
      (calls.length : ℚ) * x ≤ bs →
      (∀ r ∈ (runTransfers db calls).1, ∃ v, r = .ok v) ∧
        (runTransfers db calls).2.balance src = some (bs - calls.length * x) ∧
        (runTransfers db calls).2.balance dst = some (bd + calls.length * x) := by
  intro calls
  induction calls with
  | nil =>
    intro db bs bd _ hs hd _
    simp [runTransfers, hs, hd]
  | cons c cs ih =>
    intro db bs bd hall hs hd hle
    obtain ⟨hserved, hcs, hcd, hcx⟩ := hall c (List.mem_cons_self _ _)
    obtain ⟨rs, hrs, hbs⟩ := balance_eq_some.mp hs
    obtain ⟨rd, hrd, hbd⟩ := balance_eq_some.mp hd
    have hlen : ((c :: cs).length : ℚ) = cs.length + 1 := by simp
    rw [hlen] at hle
    have hcsx : 0 ≤ (cs.length : ℚ) * x := mul_nonneg (Nat.cast_nonneg _) hx
    have hfunds : ¬ rs.balance < x := by rw [hbs]; intro hlt; nlinarith
    have hstep := ProcessTransfer_served hserved hrs hrd hfunds
    have hs1 : (committed db c.env src dst x).balance src = some (rs.balance - x) :=
      committed_balance_source hne hrs
    have hd1 : (committed db c.env src dst x).balance dst = some (rd.balance + x) :=
      committed_balance_dest hne hrd
    obtain ⟨ih1, ih2, ih3⟩ := ih (committed db c.env src dst x) (rs.balance - x)
      (rd.balance + x) (fun c1 hc1 => hall c1 (List.mem_cons_of_mem _ hc1)) hs1 hd1
      (by rw [hbs]; nlinarith)
    simp only [runTransfers, hcs, hcd, hcx, hstep.1, hstep.2, List.mem_cons, hlen]
    refine ⟨?_, ?_, ?_⟩
    · rintro r (hr | hr)
      · exact ⟨_, hr⟩
      · exact ih1 r hr
    · rw [ih2, hbs]; congr 1; ring
    · rw [ih3, hbd]; congr 1; ring

/-- C4: between two distinct existing accounts, `ProcessTransfer` returns
`ErrInsufficientFunds` only if the source balance is strictly below the amount, and,
when the database serves `Begin` and the two locking reads, if and only if it is.  A
transfer of exactly the whole source balance, every statement served, succeeds and leaves
the source at 0.  Equal transfers of a non-negative amount executed one after another out
of an account that holds exactly their total all succeed, leave the source at 0 and add
the total to the destination. -/
theorem C4_insufficient_funds_iff_below (db : DB) (env : TxEnv) (source dest : Int)
    (amount : Decimal) (rs rd : AccountRow) (hne : source ≠ dest)
    (hs : db.accounts source = some rs) (hd : db.accounts dest = some rd) :
    ((ProcessTransfer db env source dest amount).result
        = .error (.code ErrInsufficientFunds) → rs.balance < amount) ∧
    (env.locksServed →
      ((ProcessTransfer db env source dest amount).result
        = .error (.code ErrInsufficientFunds) ↔ rs.balance < amount)) ∧
    (env.allServed → amount = rs.balance →
      (ProcessTransfer db env source dest amount).result
        = .ok (⟨env.newID, source, dest, amount, 0, 0⟩, 0, rd.balance + amount) ∧
      (ProcessTransfer db env source dest amount).db.balance source = some 0) ∧
    (∀ calls : List TransferCall,
      (∀ c ∈ calls, c.env.allServed ∧ c.source = source ∧ c.dest = dest ∧ c.amount = amount) →
      0 ≤ amount → rs.balance = calls.length * amount →
      (∀ r ∈ (runTransfers db calls).1, ∃ v, r = .ok v) ∧
        (runTransfers db calls).2.balance source = some 0 ∧
        (runTransfers db calls).2.balance dest = some (rd.balance + calls.length * amount)) := by
  refine ⟨?_, ?_, ?_, ?_⟩
  · intro h
    rcases hb : env.beginErr with _ | e0
    · rcases h1 : env.lockFirstErr with _ | e1
      · rcases h2 : env.lockSecondErr with _ | e2
        · exact (ProcessTransfer_insufficient_iff ⟨hb, h1, h2⟩ hs hd).mp h
        · by_cases hlt : source < dest <;>
            simp [ProcessTransfer, lockAccounts, selectBalanceForUpdate, hb, h1, h2, hs, hd,
              hlt] at h
      · by_cases hlt : source < dest <;>
          simp [ProcessTransfer, lockAccounts, selectBalanceForUpdate, hb, h1, hlt] at h
    · simp [ProcessTransfer, hb] at h
  · intro henv
    exact ProcessTransfer_insufficient_iff henv hs hd
  · intro henv hamt
    have hfunds : ¬ rs.balance < amount := by rw [hamt]; exact lt_irrefl _
    obtain ⟨h1, h2⟩ := ProcessTransfer_served henv hs hd hfunds
    refine ⟨?_, ?_⟩
    · rw [h1, hamt]; simp
    · rw [h2, committed_balance_source hne hs, hamt]; simp
  · intro calls hall hx hbal
    obtain ⟨h1, h2, h3⟩ := runTransfers_repeat hne hx calls db rs.balance rd.balance hall
      (balance_eq_some.mpr ⟨rs, hs, rfl⟩) (balance_eq_some.mpr ⟨rd, hd, rfl⟩) (le_of_eq hbal.symm)
    refine ⟨h1, ?_, h3⟩
    rw [h2, hbal]; simp

/-- Instance of C4: 1000 transfers of 0.5 out of an account holding 500 into an account
holding 0 all succeed and leave 0 and 500. -/
theorem C4_insufficient_funds_iff_below_witness :
    (∀ r ∈ (runTransfers (DB.ofList [(1, 500), (2, 0)])
        ((List.range 1000).map fun i => ⟨TxEnv.healthy i (i + 1), 1, 2, 1 / 2⟩)).1,
        ∃ v, r = .ok v) ∧
      (runTransfers (DB.ofList [(1, 500), (2, 0)])
        ((List.range 1000).map fun i => ⟨TxEnv.healthy i (i + 1), 1, 2, 1 / 2⟩)).2.balance 1
        = some 0 ∧
      (runTransfers (DB.ofList [(1, 500), (2, 0)])
        ((List.range 1000).map fun i => ⟨TxEnv.healthy i (i + 1), 1, 2, 1 / 2⟩)).2.balance 2
        = some 500 := by
  have h := (C4_insufficient_funds_iff_below (DB.ofList [(1, 500), (2, 0)])
    (TxEnv.healthy 0 1) 1 2 (1 / 2) ⟨500, 0, 0⟩ ⟨0, 0, 0⟩ (by decide)
    (by simp [DB.ofList, List.lookup]) (by simp [DB.ofList, List.lookup])).2.2.2
    ((List.range 1000).map fun i => ⟨TxEnv.healthy i (i + 1), 1, 2, 1 / 2⟩)
    (by
      intro c hc
      obtain ⟨i, -, rfl⟩ := List.mem_map.mp hc
      simp [TxEnv.allServed, TxEnv.locksServed, TxEnv.healthy])
    (by norm_num) (by simp; norm_num)
  refine ⟨h.1, h.2.1, ?_⟩
  rw [h.2.2]
  simp
  norm_num

/-! ## Request validation -/

/-- A request with distinct ids whose amount parses to a positive decimal passes
`ValidateRequest`. -/
theorem ValidateRequest_valid {lib : Extern} {req : TransferRequest} {amount : Decimal}
    (hne : req.SourceAccountID ≠ req.DestinationAccountID)
    (hparse : lib.NewFromString req.Amount = .ok amount) (hpos : 0 < amount) :
    req.ValidateRequest lib = none := by
  have h1 : ¬ amount < 0 := not_lt.mpr hpos.le
  have h2 : amount ≠ 0 := ne_of_gt hpos
  simp [TransferRequest.ValidateRequest, hne, hparse, Decimal.IsNegative, Decimal.IsZero, h1, h2]

/-- For a valid request and a configured repository, `CreateTransfer` is `ProcessTransfer`
on the parsed amount with the balances rendered. -/
theorem CreateTransfer_valid {lib : Extern} {c : GinContext} {now : Nat} {db : DB}
    {env : TxEnv} {req : TransferRequest} {amount : Decimal}
    (hne : req.SourceAccountID ≠ req.DestinationAccountID)
    (hparse : lib.NewFromString req.Amount = .ok amount) (hpos : 0 < amount)
    (hrepo : getTransferRepo c = .ok ()) :
    (CreateTransfer lib c now db env req).db
        = (ProcessTransfer db env req.SourceAccountID req.DestinationAccountID amount).db ∧
      (CreateTransfer lib c now db env req).trace
        = (ProcessTransfer db env req.SourceAccountID req.DestinationAccountID amount).trace ∧
      (CreateTransfer lib c now db env req).result
        = match (ProcessTransfer db env req.SourceAccountID req.DestinationAccountID
            amount).result with
          | .error err => .error err
          | .ok (transfer, sourceBalance, destBalance) =>
            .ok (req.ToResponse lib now transfer.ID sourceBalance destBalance) := by
  have hv := ValidateRequest_valid hne hparse hpos
  unfold CreateTransfer
  simp only [hv, hrepo, hparse]
  rcases (ProcessTransfer db env req.SourceAccountID req.DestinationAccountID amount).result
    with e | ⟨t, nsb, ndb⟩ <;> simp

/-- C6: a request whose source id equals its destination id is rejected by
`ValidateRequest` with `ErrSameAccountTransfer`, whatever the amount string and whatever
the parser makes of it; `CreateTransfer` returns the same error, sends no statement to the
database and leaves it as it was. -/
theorem C6_same_account_rejected (lib : Extern) (c : GinContext) (now : Nat) (db : DB)
    (env : TxEnv) (req : TransferRequest)
    (hsame : req.SourceAccountID = req.DestinationAccountID) :
    req.ValidateRequest lib = some (.code ErrSameAccountTransfer) ∧
      (CreateTransfer lib c now db env req).result = .error (.code ErrSameAccountTransfer) ∧
      (CreateTransfer lib c now db env req).trace = [] ∧
      (CreateTransfer lib c now db env req).db = db := by
  have hv : req.ValidateRequest lib = some (.code ErrSameAccountTransfer) := by
    simp [TransferRequest.ValidateRequest, hsame]
  refine ⟨hv, ?_, ?_, ?_⟩ <;> simp [CreateTransfer, hv]

/-- Instance of C6: account 1 to account 1 with an amount that is not a number. -/
theorem C6_same_account_rejected_witness :
    TransferRequest.ValidateRequest Extern.sample ⟨1, 1, "abc"⟩
        = some (.code ErrSameAccountTransfer) ∧
      (CreateTransfer Extern.sample (GinContext.routed "") 9 (DB.ofList [(1, 1000)])
        (TxEnv.healthy 9 1) ⟨1, 1, "abc"⟩).result = .error (.code ErrSameAccountTransfer) ∧
      (CreateTransfer Extern.sample (GinContext.routed "") 9 (DB.ofList [(1, 1000)])
        (TxEnv.healthy 9 1) ⟨1, 1, "abc"⟩).trace = [] ∧
      (CreateTransfer Extern.sample (GinContext.routed "") 9 (DB.ofList [(1, 1000)])
        (TxEnv.healthy 9 1) ⟨1, 1, "abc"⟩).db = DB.ofList [(1, 1000)] :=
  C6_same_account_rejected Extern.sample (GinContext.routed "") 9 (DB.ofList [(1, 1000)])
    (TxEnv.healthy 9 1) ⟨1, 1, "abc"⟩ rfl

/-- C7: for a request with distinct ids, `ValidateRequest` returns an error with the code
of `ErrInvalidParams` (2) if and only if the amount string does not parse or parses to a
value that is at most 0, and returns no error if and only if it parses to a positive
value.  The error is `ErrInvalidParams` with the message `invalid amount format: ...` for
a parse error and `amount must be positive` for a value that is at most 0. -/
theorem C7_invalid_amount_iff (lib : Extern) (req : TransferRequest)
    (hne : req.SourceAccountID ≠ req.DestinationAccountID) :
    ((∃ ce, req.ValidateRequest lib = some (.code ce) ∧ ce.Code = 2) ↔
      ((∃ e, lib.NewFromString req.Amount = .error e) ∨
        ∃ a, lib.NewFromString req.Amount = .ok a ∧ a ≤ 0)) ∧
    (req.ValidateRequest lib = none ↔ ∃ a, lib.NewFromString req.Amount = .ok a ∧ 0 < a) ∧
    (∀ e, lib.NewFromString req.Amount = .error e →
      req.ValidateRequest lib
        = some (.code (NewWithMsg ErrInvalidParams ("invalid amount format: " ++ e)))) ∧
    (∀ a, lib.NewFromString req.Amount = .ok a → a ≤ 0 →
      req.ValidateRequest lib
        = some (.code (NewWithMsg ErrInvalidParams "amount must be positive"))) := by
  have hbad : ∀ e, lib.NewFromString req.Amount = .error e →
      req.ValidateRequest lib
        = some (.code (NewWithMsg ErrInvalidParams ("invalid amount format: " ++ e))) := by
    intro e he
    simp [TransferRequest.ValidateRequest, hne, he]
  have hnonpos : ∀ a, lib.NewFromString req.Amount = .ok a → a ≤ 0 →
      req.ValidateRequest lib
        = some (.code (NewWithMsg ErrInvalidParams "amount must be positive")) := by
    intro a ha hle
    have : a < 0 ∨ a = 0 := lt_or_eq_of_le hle
    simp [TransferRequest.ValidateRequest, hne, ha, Decimal.IsNegative, Decimal.IsZero, this]
  have hgood : ∀ a, lib.NewFromString req.Amount = .ok a → 0 < a →
      req.ValidateRequest lib = none := fun a ha hpos => ValidateRequest_valid hne ha hpos
  refine ⟨⟨?_, ?_⟩, ⟨?_, ?_⟩, hbad, hnonpos⟩
  · rintro ⟨ce, hce, -⟩
    rcases hp : lib.NewFromString req.Amount with e | a
    · exact Or.inl ⟨e, rfl⟩
    · refine Or.inr ⟨a, rfl, ?_⟩
      by_contra hpos
      rw [hgood a hp (not_le.mp hpos)] at hce
      exact Option.noConfusion hce
  · rintro (⟨e, he⟩ | ⟨a, ha, hle⟩)
    · exact ⟨_, hbad e he, rfl⟩
    · exact ⟨_, hnonpos a ha hle, rfl⟩
  · intro h
    exact (ValidateRequest_none h).2
  · rintro ⟨a, ha, hpos⟩
    exact hgood a ha hpos

/-- Instance of C7: the amount `-5` parses to a value below 0 and is rejected with code
2. -/
theorem C7_invalid_amount_iff_witness :
    TransferRequest.ValidateRequest Extern.sample ⟨1, 2, "-5"⟩
      = some (.code (NewWithMsg ErrInvalidParams "amount must be positive")) :=
  (C7_invalid_amount_iff Extern.sample ⟨1, 2, "-5"⟩ (by decide)).2.2.2 (-5)
    (by simp [Extern.sample, parseDecimal, digitsValue, Char.isDigit]) (by norm_num)

/-! ## Missing accounts -/

/-- C5: for distinct ids, with `Begin` and the locking reads served, and for every amount
(also one above the source balance): when the source row is missing and the destination
row exists, `ProcessTransfer` returns `ErrSourceAccountNotFound`; when the destination row
is missing and the source row exists, it returns `ErrDestinationAccountNotFound` and the
stored source balance is unchanged.  For a request that passes validation (amount parsing
to a positive decimal) the service function `CreateTransfer` returns the same errors. -/
theorem C5_missing_account_reported (lib : Extern) (c : GinContext) (now : Nat) (db : DB)
    (env : TxEnv) (req : TransferRequest) (amount anyAmount : Decimal)
    (hne : req.SourceAccountID ≠ req.DestinationAccountID)
    (hparse : lib.NewFromString req.Amount = .ok amount) (hpos : 0 < amount)
    (hrepo : getTransferRepo c = .ok ()) (henv : env.locksServed) :
    (db.accounts req.SourceAccountID = none →
      (∃ rd, db.accounts req.DestinationAccountID = some rd) →
      (ProcessTransfer db env req.SourceAccountID req.DestinationAccountID anyAmount).result
        = .error (.code ErrSourceAccountNotFound) ∧
      (CreateTransfer lib c now db env req).result
        = .error (.code ErrSourceAccountNotFound)) ∧
    (db.accounts req.DestinationAccountID = none →
      ∀ rs, db.accounts req.SourceAccountID = some rs →
      (ProcessTransfer db env req.SourceAccountID req.DestinationAccountID anyAmount).result
        = .error (.code ErrDestinationAccountNotFound) ∧
      (ProcessTransfer db env req.SourceAccountID req.DestinationAccountID anyAmount).db.balance
        req.SourceAccountID = some rs.balance ∧
      (CreateTransfer lib c now db env req).result
        = .error (.code ErrDestinationAccountNotFound) ∧
      (CreateTransfer lib c now db env req).db.balance req.SourceAccountID
        = some rs.balance) := by
  obtain ⟨hb, h1, h2⟩ := henv
  obtain ⟨hdb, -, hres⟩ := @CreateTransfer_valid lib c now db env req amount hne hparse hpos
    hrepo
  constructor
  · rintro hs ⟨rd, hd⟩
    have key : ∀ a : Decimal,
        (ProcessTransfer db env req.SourceAccountID req.DestinationAccountID a).result
          = .error (.code ErrSourceAccountNotFound) := by
      intro a
      by_cases hlt : req.SourceAccountID < req.DestinationAccountID <;>
        simp [ProcessTransfer, lockAccounts, selectBalanceForUpdate, hb, h1, h2, hs, hd, hlt]
    refine ⟨key anyAmount, ?_⟩
    rw [hres, key amount]
  · intro hd rs hs
    have key : ∀ a : Decimal,
        (ProcessTransfer db env req.SourceAccountID req.DestinationAccountID a).result
          = .error (.code ErrDestinationAccountNotFound) := by
      intro a
      by_cases hlt : req.SourceAccountID < req.DestinationAccountID <;>
        simp [ProcessTransfer, lockAccounts, selectBalanceForUpdate, hb, h1, h2, hs, hd, hlt]
    refine ⟨key anyAmount, ?_, ?_, ?_⟩
    · rw [ProcessTransfer_error (key anyAmount)]
      simp [DB.balance, hs]
    · rw [hres, key amount]
    · rw [hdb, ProcessTransfer_error (key amount)]
      simp [DB.balance, hs]

/-- Instance of C5: 2000.00 requested from account 1 (1000.00) to the missing account 9 is
answered with `ErrDestinationAccountNotFound`, not with insufficient funds. -/
theorem C5_missing_account_reported_witness :
    (CreateTransfer Extern.sample (GinContext.routed "") 9 (DB.ofList [(1, 1000), (2, 500)])
        (TxEnv.healthy 9 1) ⟨1, 9, "2000.00"⟩).result
      = .error (.code ErrDestinationAccountNotFound) ∧
    (CreateTransfer Extern.sample (GinContext.routed "") 9 (DB.ofList [(1, 1000), (2, 500)])
        (TxEnv.healthy 9 1) ⟨1, 9, "2000.00"⟩).db.balance 1 = some 1000 :=
  have h := (C5_missing_account_reported Extern.sample (GinContext.routed "") 9
    (DB.ofList [(1, 1000), (2, 500)]) (TxEnv.healthy 9 1) ⟨1, 9, "2000.00"⟩ 2000 2000
    (by decide)
    (by simp [Extern.sample, parseDecimal, digitsValue, Char.isDigit]; norm_num)
    (by norm_num) (by simp [getTransferRepo, GinContext.routed])
    (by simp [TxEnv.locksServed, TxEnv.healthy])).2
    (by simp [DB.ofList, List.lookup]) ⟨1000, 0, 0⟩ (by simp [DB.ofList, List.lookup])
  ⟨h.2.2.1, h.2.2.2⟩

/-! ## Lock order -/

theorem lockRequests_append (l1 l2 : List Stmt) :
    lockRequests (l1 ++ l2) = lockRequests l1 ++ lockRequests l2 := by
  induction l1 with
  | nil => rfl
  | cons st rest ih => cases st <;> simp [lockRequests, ih]

/-- The locking reads of a call are those of `lockAccounts`, none when `Begin` fails. -/
theorem lockRequests_ProcessTransfer (db : DB) (env : TxEnv) (src dst : Int)
    (amount : Decimal) :
    lockRequests (ProcessTransfer db env src dst amount).trace
      = match env.beginErr with
        | some _ => []
        | none => lockRequests (lockAccounts db env src dst).2 := by
  rcases hb : env.beginErr with _ | e0
  · rcases hl : lockAccounts db env src dst with ⟨_ | ⟨sb, tb⟩, locks⟩
    · simp [ProcessTransfer, hb, hl, lockRequests]
    · by_cases hlt : Decimal.LessThan sb amount = true
      · simp [ProcessTransfer, hb, hl, hlt, lockRequests]
      · rcases h1 : env.debitErr with _ | e1
        · rcases h2 : env.creditErr with _ | e2
          · rcases h3 : env.insertErr with _ | e3
            · rcases h4 : env.commitErr with _ | e4 <;>
                simp [ProcessTransfer, hb, hl, hlt, h1, h2, h3, h4, lockRequests,
                  lockRequests_append]
            · simp [ProcessTransfer, hb, hl, hlt, h1, h2, h3, lockRequests, lockRequests_append]
          · simp [ProcessTransfer, hb, hl, hlt, h1, h2, lockRequests, lockRequests_append]
        · simp [ProcessTransfer, hb, hl, hlt, h1, lockRequests, lockRequests_append]
  · simp [ProcessTransfer, hb, lockRequests]

/-- The locking reads of `lockAccounts` for ids `lo < hi`, in either role: `lo`, and then
`hi` if the read of `lo` returned a row. -/
theorem lockRequests_lockAccounts (db : DB) (env : TxEnv) {lo hi : Int} (h : lo < hi) :
    lockRequests (lockAccounts db env lo hi).2
        = (match selectBalanceForUpdate db env.lockFirstErr lo with
          | .row _ => [lo, hi]
          | _ => [lo]) ∧
      lockRequests (lockAccounts db env hi lo).2
        = (match selectBalanceForUpdate db env.lockFirstErr lo with
          | .row _ => [lo, hi]
          | _ => [lo]) := by
  have h' : ¬ hi < lo := not_lt.mpr h.le
  unfold lockAccounts
  simp only [h, h', if_true, if_false]
  rcases selectBalanceForUpdate db env.lockFirstErr lo with b | _ | e
  · rcases selectBalanceForUpdate db env.lockSecondErr hi with b2 | _ | e2 <;>
      simp [lockRequests]
  · simp [lockRequests]
  · simp [lockRequests]

/-- Lock requests of a call for ids `lo < hi`, in either role. -/
theorem lockRequests_ordered (db : DB) (env : TxEnv) {lo hi : Int} (h : lo < hi)
    (amount amount2 : Decimal) :
    lockRequests (ProcessTransfer db env lo hi amount).trace
        = lockRequests (ProcessTransfer db env hi lo amount2).trace ∧
      lockRequests (ProcessTransfer db env lo hi amount).trace <+: [lo, hi] ∧
      (env.beginErr = none → env.lockFirstErr = none → (∃ r, db.accounts lo = some r) →
        lockRequests (ProcessTransfer db env lo hi amount).trace = [lo, hi]) := by
  obtain ⟨h1, h2⟩ := lockRequests_lockAccounts db env h
  rw [lockRequests_ProcessTransfer, lockRequests_ProcessTransfer]
  rcases hb : env.beginErr with _ | e0
  · simp only [h1, h2, true_and]
    constructor
    · rcases selectBalanceForUpdate db env.lockFirstErr lo with b | _ | e
      · exact List.prefix_refl _
      · exact ⟨[hi], rfl⟩
      · exact ⟨[hi], rfl⟩
    · rintro - hf ⟨r, hr⟩
      simp [hf, selectBalanceForUpdate_served hr]
  · simp

/-- C8: for distinct ids `a` and `b` the locking reads (`SELECT ... FOR UPDATE`) sent by
`ProcessTransfer(a, b, _)` and by `ProcessTransfer(b, a, _)` on the same database are the
same sequence; it is an initial part of `min a b, max a b`, so the smaller id is always
requested first; and it is exactly `min a b, max a b` whenever `Begin` is served and the
read of the smaller id is served and finds its row (otherwise the call returns before the
second read). -/
theorem C8_lock_order_ascending (db : DB) (env : TxEnv) (a b : Int)
    (amount amount2 : Decimal) (hne : a ≠ b) :
    lockRequests (ProcessTransfer db env a b amount).trace
        = lockRequests (ProcessTransfer db env b a amount2).trace ∧
      lockRequests (ProcessTransfer db env a b amount).trace <+: [min a b, max a b] ∧
      (env.beginErr = none → env.lockFirstErr = none →
        (∃ r, db.accounts (min a b) = some r) →
        lockRequests (ProcessTransfer db env a b amount).trace = [min a b, max a b] ∧
        lockRequests (ProcessTransfer db env b a amount2).trace = [min a b, max a b]) := by
  rcases lt_or_gt_of_ne hne with h | h
  · obtain ⟨h1, h2, h3⟩ := lockRequests_ordered db env h amount amount2
    rw [min_eq_left h.le, max_eq_right h.le]
    refine ⟨h1, h2, fun hb hf hr => ?_⟩
    have := h3 hb hf hr
    exact ⟨this, h1 ▸ this⟩
  · obtain ⟨h1, h2, h3⟩ := lockRequests_ordered db env h amount2 amount
    rw [min_eq_right h.le, max_eq_left h.le]
    refine ⟨h1.symm, h1 ▸ h2, fun hb hf hr => ?_⟩
    have := h3 hb hf hr
    exact ⟨h1 ▸ this, this⟩

/-- Instance of C8: transfers 2 to 1 and 1 to 2 both request the row locks 1, 2. -/
theorem C8_lock_order_ascending_witness :
    lockRequests (ProcessTransfer (DB.ofList [(1, 1000), (2, 500)]) (TxEnv.healthy 9 1) 2 1
        10).trace = [1, 2] ∧
      lockRequests (ProcessTransfer (DB.ofList [(1, 1000), (2, 500)]) (TxEnv.healthy 9 1) 1 2
        10).trace = [1, 2] :=
  (C8_lock_order_ascending (DB.ofList [(1, 1000), (2, 500)]) (TxEnv.healthy 9 1) 2 1 10 10
    (by decide)).2.2 rfl rfl ⟨⟨1000, 0, 0⟩, by simp [DB.ofList, List.lookup]⟩

/-! ## Returned balances -/

/-- C10: when `ProcessTransfer` between distinct accounts succeeds, the source balance and
the destination balance it returns are the balances stored for the two accounts in the
committed database; when `CreateTransfer` succeeds, the two balances in its response are
the renderings of the balances stored for the source and the destination account. -/
theorem C10_returned_balances_are_stored (lib : Extern) (c : GinContext) (now : Nat)
    (db : DB) (env : TxEnv) (req : TransferRequest) (source dest : Int) (amount : Decimal) :
    (source ≠ dest → ∀ t nsb ndb,
      (ProcessTransfer db env source dest amount).result = .ok (t, nsb, ndb) →
      (ProcessTransfer db env source dest amount).db.balance source = some nsb ∧
      (ProcessTransfer db env source dest amount).db.balance dest = some ndb) ∧
    (∀ resp, (CreateTransfer lib c now db env req).result = .ok resp →
      ∃ sb tb,
        (CreateTransfer lib c now db env req).db.balance req.SourceAccountID = some sb ∧
        (CreateTransfer lib c now db env req).db.balance req.DestinationAccountID = some tb ∧
        resp.SourceBalance = lib.DecimalString sb ∧
        resp.DestinationBalance = lib.DecimalString tb) := by
  have key : ∀ (s d : Int) (a : Decimal), s ≠ d → ∀ t nsb ndb,
      (ProcessTransfer db env s d a).result = .ok (t, nsb, ndb) →
      (ProcessTransfer db env s d a).db.balance s = some nsb ∧
      (ProcessTransfer db env s d a).db.balance d = some ndb := by
    intro s d a hne t nsb ndb hok
    obtain ⟨rs, rd, hrs, hrd, -, hdb, hn1, hn2, -⟩ := ProcessTransfer_ok hok
    rw [hdb, committed_balance_source hne hrs, committed_balance_dest hne hrd, hn1, hn2]
    exact ⟨rfl, rfl⟩
  refine ⟨key source dest amount, ?_⟩
  intro resp hresp
  rcases hv : req.ValidateRequest lib with _ | err
  · obtain ⟨hne, a, hp, hpos⟩ := ValidateRequest_none hv
    rcases hr : getTransferRepo c with err | u
    · simp [CreateTransfer, hv, hr] at hresp
    · obtain ⟨hdb, -, hres⟩ := @CreateTransfer_valid lib c now db env req a hne hp hpos hr
      rw [hres] at hresp
      rcases ho : (ProcessTransfer db env req.SourceAccountID req.DestinationAccountID
          a).result with e | ⟨t, nsb, ndb⟩
      · simp [ho] at hresp
      · simp only [ho, Except.ok.injEq] at hresp
        obtain ⟨h1, h2⟩ := key _ _ a hne t nsb ndb ho
        refine ⟨nsb, ndb, ?_, ?_, ?_, ?_⟩
        · rw [hdb, h1]
        · rw [hdb, h2]
        · rw [← hresp]; rfl
        · rw [← hresp]; rfl
  · simp [CreateTransfer, hv] at hresp

/-- Instance of C10: 100.50 from account 1 (1000.00) to account 2 (500.00) returns 899.50
and 600.50, the balances then stored. -/
theorem C10_returned_balances_are_stored_witness :
    (ProcessTransfer (DB.ofList [(1, 1000), (2, 500)]) (TxEnv.healthy 7 1) 1 2
        (201 / 2)).db.balance 1 = some (1799 / 2) ∧
      (ProcessTransfer (DB.ofList [(1, 1000), (2, 500)]) (TxEnv.healthy 7 1) 1 2
        (201 / 2)).db.balance 2 = some (1201 / 2) :=
  (C10_returned_balances_are_stored Extern.sample (GinContext.routed "") 7
    (DB.ofList [(1, 1000), (2, 500)]) (TxEnv.healthy 7 1) ⟨1, 2, "100.50"⟩ 1 2 (201 / 2)).1
    (by decide) ⟨1, 1, 2, 201 / 2, 0, 0⟩ (1799 / 2) (1201 / 2)
    (by
      simp [ProcessTransfer, lockAccounts, selectBalanceForUpdate, TxEnv.healthy, DB.ofList,
        List.lookup, Decimal.LessThan, Decimal.Sub, Decimal.Add]
      norm_num)

/-! ## The transfer record -/

theorem committed_transactions (db : DB) (env : TxEnv) (src dst : Int) (amount : Decimal) :
    (committed db env src dst amount).transactions
      = db.transactions ++ [⟨env.newID, src, dst, amount, env.now, env.now⟩] := by
  simp [committed, insertTransaction, updateBalance]

/-- C11: a successful `ProcessTransfer` leaves the table of transfer records equal to the
table before the call followed by exactly one new row; the row carries the source id, the
destination id and the amount of the call and the id of the returned `Transfer`, whose
other fields are those of the call too.  For a successful `CreateTransfer` the new row
carries the ids of the request, the parsed amount and the `TransactionID` of the
response. -/
theorem C11_one_record_appended (lib : Extern) (c : GinContext) (now : Nat) (db : DB)
    (env : TxEnv) (req : TransferRequest) (source dest : Int) (amount : Decimal) :
    (∀ t nsb ndb, (ProcessTransfer db env source dest amount).result = .ok (t, nsb, ndb) →
      (ProcessTransfer db env source dest amount).db.transactions
        = db.transactions ++ [⟨t.ID, source, dest, amount, env.now, env.now⟩] ∧
      t.SourceAccountID = source ∧ t.DestinationAccountID = dest ∧ t.Amount = amount) ∧
    (∀ resp, (CreateTransfer lib c now db env req).result = .ok resp →
      ∃ a, lib.NewFromString req.Amount = .ok a ∧
        (CreateTransfer lib c now db env req).db.transactions
          = db.transactions ++ [⟨resp.TransactionID, req.SourceAccountID,
              req.DestinationAccountID, a, env.now, env.now⟩]) := by
  have key : ∀ (s d : Int) (a : Decimal) t nsb ndb,
      (ProcessTransfer db env s d a).result = .ok (t, nsb, ndb) →
      (ProcessTransfer db env s d a).db.transactions
        = db.transactions ++ [⟨t.ID, s, d, a, env.now, env.now⟩] ∧
      t.SourceAccountID = s ∧ t.DestinationAccountID = d ∧ t.Amount = a := by
    intro s d a t nsb ndb hok
    obtain ⟨rs, rd, -, -, -, hdb, -, -, ht⟩ := ProcessTransfer_ok hok
    rw [hdb, committed_transactions, ht]
    exact ⟨rfl, rfl, rfl, rfl⟩
  refine ⟨key source dest amount, ?_⟩
  intro resp hresp
  rcases hv : req.ValidateRequest lib with _ | err
  · obtain ⟨hne, a, hp, hpos⟩ := ValidateRequest_none hv
    rcases hr : getTransferRepo c with err | u
    · simp [CreateTransfer, hv, hr] at hresp
    · obtain ⟨hdb, -, hres⟩ := @CreateTransfer_valid lib c now db env req a hne hp hpos hr
      rw [hres] at hresp
      rcases ho : (ProcessTransfer db env req.SourceAccountID req.DestinationAccountID
          a).result with e | ⟨t, nsb, ndb⟩
      · simp [ho] at hresp
      · simp only [ho, Except.ok.injEq] at hresp
        refine ⟨a, hp, ?_⟩
        rw [hdb, (key _ _ a t nsb ndb ho).1, ← hresp]
        rfl
  · simp [CreateTransfer, hv] at hresp

/-- Instance of C11: the transfer of 100.50 from account 1 to account 2, drawn id 41, at
time 7, adds the row `(41, 1, 2, 100.50, 7, 7)` to the empty table. -/
theorem C11_one_record_appended_witness :
    (ProcessTransfer (DB.ofList [(1, 1000), (2, 500)]) (TxEnv.healthy 7 41) 1 2
        (201 / 2)).db.transactions = [⟨41, 1, 2, 201 / 2, 7, 7⟩] :=
  ((C11_one_record_appended Extern.sample (GinContext.routed "") 7
    (DB.ofList [(1, 1000), (2, 500)]) (TxEnv.healthy 7 41) ⟨1, 2, "100.50"⟩ 1 2 (201 / 2)).1
    ⟨41, 1, 2, 201 / 2, 0, 0⟩ (1799 / 2) (1201 / 2)
    (by
      simp [ProcessTransfer, lockAccounts, selectBalanceForUpdate, TxEnv.healthy, DB.ofList,
        List.lookup, Decimal.LessThan, Decimal.Sub, Decimal.Add]
      norm_num)).1

/-! ## Creating an account that exists -/

theorem uniqueViolation_contains : stringsContains uniqueViolation "23505" = true := by
  simp only [stringsContains, decide_eq_true_eq]
  exact ⟨"ERROR: duplicate key value violates unique constraint (SQLSTATE ".toList,
    ")".toList, by simp [uniqueViolation]⟩

/-- The repository never changes the database when the id is taken. -/
theorem repoCreateAccount_existing_db {db : DB} {acc : Account} {r : AccountRow}
    (driverErr : Option String) (hex : db.accounts acc.ID = some r) :
    (AccountRepository.CreateAccount db driverErr acc).2 = db := by
  unfold AccountRepository.CreateAccount
  rcases driverErr with _ | e
  · simp only [hex]
    split <;> rfl
  · simp only
    split <;> rfl

/-- With the statement served, the repository reports `created = false` for a taken id. -/
theorem repoCreateAccount_existing {db : DB} {acc : Account} {r : AccountRow}
    (hex : db.accounts acc.ID = some r) :
    AccountRepository.CreateAccount db none acc = (.ok false, db) := by
  simp [AccountRepository.CreateAccount, hex, uniqueViolation_contains]

/-- The service function never changes the database when the id is taken. -/
theorem CreateAccount_existing_db (lib : Extern) (c : GinContext) (now : Nat) {db : DB}
    (driverErr : Option String) {req : CreateAccountRequest} {r : AccountRow}
    (hex : db.accounts req.AccountID = some r) :
    (CreateAccount lib c now db driverErr req).db = db := by
  unfold CreateAccount
  rcases ha : req.ToAccount lib now with err | account
  · rfl
  · rcases hr : getRepo c with err | u
    · rfl
    · have hid : account.ID = req.AccountID := by
        unfold CreateAccountRequest.ToAccount at ha
        rcases hp : lib.NewFromString req.InitialBalance with e | balance
        · simp [hp] at ha
        · by_cases hneg : Decimal.IsNegative balance = true
          · simp [hp, hneg] at ha
          · simp only [hp, hneg, Bool.false_eq_true, if_false, Except.ok.injEq] at ha
            rw [← ha]
      have hdb := @repoCreateAccount_existing_db db account r driverErr (hid ▸ hex)
      simp only
      rcases hc : AccountRepository.CreateAccount db driverErr account with ⟨res, db1⟩
      rw [hc] at hdb
      simp only at hdb
      subst hdb
      rcases res with (e | e) | (_ | _) <;> rfl

theorem ToAccount_ok {lib : Extern} {req : CreateAccountRequest} {b : Decimal} (now : Nat)
    (hparse : lib.NewFromString req.InitialBalance = .ok b) (hb : 0 ≤ b) :
    req.ToAccount lib now = .ok ⟨req.AccountID, b, now, now⟩ := by
  simp [CreateAccountRequest.ToAccount, hparse, Decimal.IsNegative, not_lt.mpr hb]

/-- A valid request for a taken id, the statement served, is answered with
`ErrAccountExists`. -/
theorem CreateAccount_taken {lib : Extern} {c : GinContext} {db : DB}
    {req : CreateAccountRequest} {b : Decimal} {r : AccountRow} (now : Nat)
    (hparse : lib.NewFromString req.InitialBalance = .ok b) (hb : 0 ≤ b)
    (hrepo : getRepo c = .ok ()) (hex : db.accounts req.AccountID = some r) :
    (CreateAccount lib c now db none req).result = .error (.code ErrAccountExists) := by
  have h := @repoCreateAccount_existing db ⟨req.AccountID, b, now, now⟩ r hex
  simp [CreateAccount, ToAccount_ok now hparse hb, hrepo, h]

/-- A valid request for a free id, the statement served, succeeds and stores the parsed
balance. -/
theorem CreateAccount_fresh {lib : Extern} {c : GinContext} {db : DB}
    {req : CreateAccountRequest} {b : Decimal} (now : Nat)
    (hparse : lib.NewFromString req.InitialBalance = .ok b) (hb : 0 ≤ b)
    (hrepo : getRepo c = .ok ()) (hfree : db.accounts req.AccountID = none) :
    (CreateAccount lib c now db none req).result = .ok () ∧
      (CreateAccount lib c now db none req).db.accounts req.AccountID = some ⟨b, now, now⟩ := by
  simp [CreateAccount, ToAccount_ok now hparse hb, hrepo, AccountRepository.CreateAccount,
    hfree]

/-- C12: when the database already holds a row with the id, `AccountRepository.CreateAccount`
with the statement served returns `created = false` and no error, whatever the balance of
the new account; `account.CreateAccount` answers a request that passes its own checks
with `ErrAccountExists`; and in every case, whatever the request and whatever the database
answers, the database after the call is the one before, so the existing row and its
balance are untouched. -/
theorem C12_existing_account_not_overwritten (lib : Extern) (c : GinContext) (now : Nat)
    (db : DB) (acc : Account) (req : CreateAccountRequest) (r : AccountRow)
    (hacc : db.accounts acc.ID = some r) (hreq : db.accounts req.AccountID = some r) :
    AccountRepository.CreateAccount db none acc = (.ok false, db) ∧
    (∀ driverErr, (AccountRepository.CreateAccount db driverErr acc).2 = db) ∧
    (∀ b, lib.NewFromString req.InitialBalance = .ok b → 0 ≤ b → getRepo c = .ok () →
      (CreateAccount lib c now db none req).result = .error (.code ErrAccountExists)) ∧
    (∀ driverErr, (CreateAccount lib c now db driverErr req).db = db ∧
      (CreateAccount lib c now db driverErr req).db.accounts req.AccountID = some r) := by
  refine ⟨repoCreateAccount_existing hacc,
    fun driverErr => repoCreateAccount_existing_db driverErr hacc,
    fun b hp hb hrepo => CreateAccount_taken now hp hb hrepo hreq, fun driverErr => ?_⟩
  have h := CreateAccount_existing_db lib c now driverErr hreq
  exact ⟨h, by rw [h]; exact hreq⟩

/-- Instance of C12: account 1 holds 100.50; a second creation with 200.00 is answered
with `ErrAccountExists` and the row still holds 100.50. -/
theorem C12_existing_account_not_overwritten_witness :
    (CreateAccount Extern.sample (GinContext.routed "") 8 (DB.ofList [(1, 201 / 2)]) none
        ⟨1, "200.00"⟩).result = .error (.code ErrAccountExists) ∧
      (CreateAccount Extern.sample (GinContext.routed "") 8 (DB.ofList [(1, 201 / 2)]) none
        ⟨1, "200.00"⟩).db.accounts 1 = some ⟨201 / 2, 0, 0⟩ :=
  have h := C12_existing_account_not_overwritten Extern.sample (GinContext.routed "") 8
    (DB.ofList [(1, 201 / 2)]) ⟨1, 200, 8, 8⟩ ⟨1, "200.00"⟩ ⟨201 / 2, 0, 0⟩
    (by simp [DB.ofList, List.lookup]) (by simp [DB.ofList, List.lookup])
  ⟨h.2.2.1 200 (by simp [Extern.sample, parseDecimal, digitsValue, Char.isDigit]; norm_num)
      (by norm_num) (by simp [getRepo, GinContext.routed]),
    (h.2.2.2 none).2⟩

/-! ## Repeated creation of one account -/

/-- Valid requests for a taken id, executed one after another, are all answered with
`ErrAccountExists` and leave the database as it was. -/
theorem runCreateAccounts_taken (lib : Extern) (id : Int) (db : DB) (r : AccountRow)
    (hex : db.accounts id = some r) :
    ∀ calls : List CreateAccountCall,
      (∀ call ∈ calls, call.req.AccountID = id ∧ call.driverErr = none ∧
        getRepo call.c = .ok () ∧
        ∃ b, lib.NewFromString call.req.InitialBalance = .ok b ∧ 0 ≤ b) →
      (runCreateAccounts lib db calls).1
          = calls.map (fun _ => .error (.code ErrAccountExists)) ∧
        (runCreateAccounts lib db calls).2 = db := by
  intro calls
  induction calls with
  | nil => intro _; exact ⟨rfl, rfl⟩
  | cons call rest ih =>
    intro hall
    obtain ⟨hid, hdrv, hrepo, b, hp, hb⟩ := hall call (List.mem_cons_self _ _)
    have hex1 : db.accounts call.req.AccountID = some r := hid ▸ hex
    have hres := CreateAccount_taken call.now hp hb hrepo hex1
    have hdb := CreateAccount_existing_db lib call.c call.now none hex1
    obtain ⟨ih1, ih2⟩ := ih (fun c1 hc1 => hall c1 (List.mem_cons_of_mem _ hc1))
    simp only [runCreateAccounts, hdrv, hres, hdb, ih1, ih2, List.map_cons, and_self]

theorem countP_isOk_map_error (e : GoError) (l : List CreateAccountCall) :
    List.countP Except.isOk (l.map fun _ => (Except.error e : Except GoError Unit)) = 0 := by
  induction l with
  | nil => rfl
  | cons a rest ih => simp [List.countP_cons, ih, Except.isOk, Except.toBool]

/-- C13: `N >= 1` service calls `CreateAccount` for the same id, which is free at the
start, with balances that parse to non-negative decimals, the repository configured and
every statement served, executed one after another in any order: the first call succeeds,
each of the other `N - 1` calls returns `ErrAccountExists`, so exactly one call succeeds,
and the balance stored afterwards is the balance of the first call. -/
theorem C13_idempotent_creation (lib : Extern) (db : DB) (id : Int)
    (first : CreateAccountCall) (rest : List CreateAccountCall) (b : Decimal)
    (hfree : db.accounts id = none)
    (hvalid : ∀ call ∈ first :: rest, call.req.AccountID = id ∧ call.driverErr = none ∧
      getRepo call.c = .ok () ∧
      ∃ b, lib.NewFromString call.req.InitialBalance = .ok b ∧ 0 ≤ b)
    (hb : lib.NewFromString first.req.InitialBalance = .ok b) :
    (runCreateAccounts lib db (first :: rest)).1
        = .ok () :: rest.map (fun _ => .error (.code ErrAccountExists)) ∧
      List.countP Except.isOk (runCreateAccounts lib db (first :: rest)).1 = 1 ∧
      (runCreateAccounts lib db (first :: rest)).2.balance id = some b := by
  obtain ⟨hid, hdrv, hrepo, b1, hp, hb1⟩ := hvalid first (List.mem_cons_self _ _)
  have hbb : b1 = b := by
    rw [hp] at hb
    exact Except.ok.inj hb
  subst hbb
  have hfree1 : db.accounts first.req.AccountID = none := hid ▸ hfree
  obtain ⟨hres, hrow⟩ := @CreateAccount_fresh lib first.c db first.req b1 first.now hp hb1
    hrepo hfree1
  rw [hid] at hrow
  obtain ⟨h1, h2⟩ := runCreateAccounts_taken lib id _ _ hrow rest
    (fun c1 hc1 => hvalid c1 (List.mem_cons_of_mem _ hc1))
  have hlist : (runCreateAccounts lib db (first :: rest)).1
      = .ok () :: rest.map (fun _ => .error (.code ErrAccountExists)) := by
    simp only [runCreateAccounts, hdrv, hres, h1]
  refine ⟨hlist, ?_, ?_⟩
  · rw [hlist, List.countP_cons, countP_isOk_map_error]
    rfl
  · simp only [runCreateAccounts, hdrv, h2, DB.balance, hrow, Option.map_some']

/-- Instance of C13: three creations of account 5 with 100.00, 250 and 7.5, run on the
empty database: one success, two `ErrAccountExists`, and 100 is stored. -/
theorem C13_idempotent_creation_witness :
    (runCreateAccounts Extern.sample DB.empty
        [⟨GinContext.routed "", 1, none, ⟨5, "100.00"⟩⟩,
          ⟨GinContext.routed "", 2, none, ⟨5, "250"⟩⟩,
          ⟨GinContext.routed "", 3, none, ⟨5, "7.5"⟩⟩]).1
        = [.ok (), .error (.code ErrAccountExists), .error (.code ErrAccountExists)] ∧
      List.countP Except.isOk (runCreateAccounts Extern.sample DB.empty
        [⟨GinContext.routed "", 1, none, ⟨5, "100.00"⟩⟩,
          ⟨GinContext.routed "", 2, none, ⟨5, "250"⟩⟩,
          ⟨GinContext.routed "", 3, none, ⟨5, "7.5"⟩⟩]).1 = 1 ∧
      (runCreateAccounts Extern.sample DB.empty
        [⟨GinContext.routed "", 1, none, ⟨5, "100.00"⟩⟩,
          ⟨GinContext.routed "", 2, none, ⟨5, "250"⟩⟩,
          ⟨GinContext.routed "", 3, none, ⟨5, "7.5"⟩⟩]).2.balance 5 = some 100 :=
  C13_idempotent_creation Extern.sample DB.empty 5 ⟨GinContext.routed "", 1, none, ⟨5, "100.00"⟩⟩
    [⟨GinContext.routed "", 2, none, ⟨5, "250"⟩⟩, ⟨GinContext.routed "", 3, none, ⟨5, "7.5"⟩⟩]
    100 rfl
    (by
      intro call hc
      simp only [List.mem_cons, List.mem_singleton, List.not_mem_nil, or_false] at hc
      rcases hc with rfl | rfl | rfl
      · refine ⟨rfl, rfl, by simp [getRepo, GinContext.routed], 100, ?_, by norm_num⟩
        simp [Extern.sample, parseDecimal, digitsValue, Char.isDigit]
        norm_num
      · refine ⟨rfl, rfl, by simp [getRepo, GinContext.routed], 250, ?_, by norm_num⟩
        simp [Extern.sample, parseDecimal, digitsValue, Char.isDigit]
      · refine ⟨rfl, rfl, by simp [getRepo, GinContext.routed], 15 / 2, ?_, by norm_num⟩
        simp [Extern.sample, parseDecimal, digitsValue, Char.isDigit]
        norm_num)
    (by
      simp [Extern.sample, parseDecimal, digitsValue, Char.isDigit]
      norm_num)

/-! ## Negative initial balance -/

/-- C14: a create-account request whose initial balance parses to a negative decimal is
rejected by `CreateAccount` with `ErrNegativeBalance` before any statement is sent, and
the database is unchanged, so no account is created; the same holds for the request
handler when the request passes the tag validation.  A request whose balance parses to
zero or a positive decimal passes the check: `ToAccount` returns the account with that
balance. -/
theorem C14_negative_balance_rejected (lib : Extern) (v : Validator) (c : GinContext)
    (now : Nat) (db : DB) (driverErr : Option String) (req : CreateAccountRequest)
    (b : Decimal) (hparse : lib.NewFromString req.InitialBalance = .ok b) :
    (b < 0 →
      req.ToAccount lib now = .error (.code ErrNegativeBalance) ∧
      (CreateAccount lib c now db driverErr req).result = .error (.code ErrNegativeBalance) ∧
      (CreateAccount lib c now db driverErr req).db = db ∧
      (CreateAccount lib c now db driverErr req).trace = [] ∧
      (req.validateStruct v = true →
        (handleCreateAccount lib v c now db driverErr req).result
          = .error (.code ErrNegativeBalance) ∧
        (handleCreateAccount lib v c now db driverErr req).db = db)) ∧
    (0 ≤ b → req.ToAccount lib now = .ok ⟨req.AccountID, b, now, now⟩) := by
  constructor
  · intro hneg
    have h1 : req.ToAccount lib now = .error (.code ErrNegativeBalance) := by
      simp [CreateAccountRequest.ToAccount, hparse, Decimal.IsNegative, hneg]
    have h2 : (CreateAccount lib c now db driverErr req).result
        = .error (.code ErrNegativeBalance) := by simp [CreateAccount, h1]
    have h3 : (CreateAccount lib c now db driverErr req).db = db := by simp [CreateAccount, h1]
    refine ⟨h1, h2, h3, by simp [CreateAccount, h1], fun hv => ?_⟩
    simp [handleCreateAccount, hv, h2, h3]
  · intro hb
    exact ToAccount_ok now hparse hb

/-- Instance of C14: the balance `-50.00` is rejected and the database stays empty. -/
theorem C14_negative_balance_rejected_witness :
    (CreateAccount Extern.sample (GinContext.routed "") 2 DB.empty none
        ⟨3, "-50.00"⟩).result = .error (.code ErrNegativeBalance) ∧
      (CreateAccount Extern.sample (GinContext.routed "") 2 DB.empty none
        ⟨3, "-50.00"⟩).db = DB.empty :=
  have h := (C14_negative_balance_rejected Extern.sample Validator.sample
    (GinContext.routed "") 2 DB.empty none ⟨3, "-50.00"⟩ (-50)
    (by simp [Extern.sample, parseDecimal, digitsValue, Char.isDigit]; norm_num)).1
    (by norm_num)
  ⟨h.2.1, h.2.2.1⟩

/-! ## Reading an account -/

theorem ToAccount_inv {lib : Extern} {req : CreateAccountRequest} {now : Nat} {acc : Account}
    (h : req.ToAccount lib now = .ok acc) :
    acc = ⟨req.AccountID, acc.InitialBalance, now, now⟩ ∧
      lib.NewFromString req.InitialBalance = .ok acc.InitialBalance ∧
      0 ≤ acc.InitialBalance := by
  unfold CreateAccountRequest.ToAccount at h
  rcases hp : lib.NewFromString req.InitialBalance with e | balance
  · simp [hp] at h
  · by_cases hneg : Decimal.IsNegative balance = true
    · simp [hp, hneg] at h
    · simp only [hp, hneg, Bool.false_eq_true, if_false, Except.ok.injEq] at h
      subst h
      exact ⟨rfl, rfl, by simpa [Decimal.IsNegative] using hneg⟩

/-- The repository keeps every row that exists. -/
theorem repoCreateAccount_keeps_row {db : DB} {k : Int} {r : AccountRow}
    (driverErr : Option String) (acc : Account) (hk : db.accounts k = some r) :
    (AccountRepository.CreateAccount db driverErr acc).2.accounts k = some r := by
  unfold AccountRepository.CreateAccount
  rcases driverErr with _ | e
  · rcases hex : db.accounts acc.ID with _ | r1
    · have hne : k ≠ acc.ID := by
        intro h
        rw [h, hex] at hk
        exact Option.noConfusion hk
      simp [hne, hk]
    · simp only
      split <;> exact hk
  · simp only
    split <;> exact hk

/-- When the repository reports `created = true`, the row of the new account is stored. -/
theorem repoCreateAccount_created {db db1 : DB} {driverErr : Option String} {acc : Account}
    (h : AccountRepository.CreateAccount db driverErr acc = (.ok true, db1)) :
    db1.accounts acc.ID = some ⟨acc.InitialBalance, acc.CreatedAt, acc.UpdatedAt⟩ := by
  unfold AccountRepository.CreateAccount at h
  rcases driverErr with _ | e
  · rcases hex : db.accounts acc.ID with _ | r1
    · simp only [hex, Prod.mk.injEq, true_and] at h
      rw [← h]
      simp
    · simp only [hex] at h
      split at h <;> simp at h
  · simp only at h
    split at h <;> simp at h

/-- `CreateAccount` keeps every row that exists. -/
theorem CreateAccount_keeps_row (lib : Extern) (c : GinContext) (now : Nat) {db : DB}
    (driverErr : Option String) (req : CreateAccountRequest) {k : Int} {r : AccountRow}
    (hk : db.accounts k = some r) :
    (CreateAccount lib c now db driverErr req).db.accounts k = some r := by
  unfold CreateAccount
  rcases ha : req.ToAccount lib now with err | account
  · exact hk
  · rcases hr : getRepo c with err | u
    · exact hk
    · have h := repoCreateAccount_keeps_row driverErr account hk
      simp only
      rcases hc : AccountRepository.CreateAccount db driverErr account with ⟨res, db1⟩
      rw [hc] at h
      rcases res with (e | e) | (_ | _) <;> exact h

/-- A successful `CreateAccount` stored the parsed balance under the id of the request. -/
theorem CreateAccount_ok {lib : Extern} {c : GinContext} {now : Nat} {db : DB}
    {driverErr : Option String} {req : CreateAccountRequest}
    (h : (CreateAccount lib c now db driverErr req).result = .ok ()) :
    ∃ b, lib.NewFromString req.InitialBalance = .ok b ∧ 0 ≤ b ∧
      (CreateAccount lib c now db driverErr req).db.accounts req.AccountID
        = some ⟨b, now, now⟩ := by
  unfold CreateAccount at h ⊢
  rcases ha : req.ToAccount lib now with err | account
  · simp [ha] at h
  · obtain ⟨hacc, hp, hb⟩ := ToAccount_inv ha
    rcases hr : getRepo c with err | u
    · simp [ha, hr] at h
    · simp only [ha, hr] at h
      simp only
      rcases hc : AccountRepository.CreateAccount db driverErr account with ⟨res, db1⟩
      rw [hc] at h
      rcases res with (e | e) | (_ | _)
      · simp at h
      · simp at h
      · simp at h
      · have hrow := repoCreateAccount_created hc
        rw [hacc] at hrow
        exact ⟨account.InitialBalance, hp, hb, hrow⟩

theorem runCreateAccounts_keeps_row (lib : Extern) {k : Int} {r : AccountRow} :
    ∀ (calls : List CreateAccountCall) (db : DB), db.accounts k = some r →
      (runCreateAccounts lib db calls).2.accounts k = some r := by
  intro calls
  induction calls with
  | nil => intro db h; exact h
  | cons call rest ih =>
    intro db h
    simp only [runCreateAccounts]
    exact ih _ (CreateAccount_keeps_row lib call.c call.now call.driverErr call.req h)

/-- With the query served, a positive id that parses from the path parameter and has a
row is answered with the id and the rendering of the stored balance. -/
theorem GetAccountByID_found {lib : Extern} {Atoi : String → Except String Int}
    {c : GinContext} {db : DB} {n : Int} {r : AccountRow}
    (hatoi : Atoi c.account_id = .ok n) (hpos : 0 < n) (hrepo : getRepo c = .ok ())
    (hrow : db.accounts n = some r) :
    (GetAccountByID lib Atoi c db none).result = .ok ⟨n, lib.DecimalString r.balance⟩ := by
  simp [GetAccountByID, hatoi, not_le.mpr hpos, hrepo, AccountRepository.GetAccountByID,
    selectAccount, hrow]

/-- C15: after a create-account request has been accepted by the request handler (tag
validation and `CreateAccount` both succeed), and after any further `CreateAccount` calls,
the stored balance of the account is exactly the decimal the request's balance string
parses to, and `GetAccountByID` for that id, the query served, returns the id and the
`decimal.Decimal.String` rendering of exactly that decimal.  Whenever that rendering is
read back by `decimal.NewFromString` as the decimal it renders, the balance string in the
response denotes the same decimal as the balance string of the request. -/
theorem C15_create_get_round_trip (lib : Extern) (Atoi : String → Except String Int)
    (v : Validator) (c c2 : GinContext) (now : Nat) (db : DB) (driverErr : Option String)
    (req : CreateAccountRequest) (others : List CreateAccountCall) (b : Decimal)
    (hcreate : (handleCreateAccount lib v c now db driverErr req).result = .ok ())
    (hparse : lib.NewFromString req.InitialBalance = .ok b)
    (hatoi : Atoi c2.account_id = .ok req.AccountID) (hrepo : getRepo c2 = .ok ()) :
    (runCreateAccounts lib (handleCreateAccount lib v c now db driverErr req).db
        others).2.balance req.AccountID = some b ∧
      (GetAccountByID lib Atoi c2
        (runCreateAccounts lib (handleCreateAccount lib v c now db driverErr req).db others).2
        none).result = .ok ⟨req.AccountID, lib.DecimalString b⟩ ∧
      (lib.NewFromString (lib.DecimalString b) = .ok b →
        ∃ resp, (GetAccountByID lib Atoi c2
            (runCreateAccounts lib (handleCreateAccount lib v c now db driverErr req).db
              others).2 none).result = .ok resp ∧
          resp.AccountID = req.AccountID ∧
          lib.NewFromString resp.Balance = lib.NewFromString req.InitialBalance) := by
  by_cases hv : req.validateStruct v = true
  · simp only [handleCreateAccount, hv, if_true] at hcreate ⊢
    obtain ⟨b1, hp1, -, hrow⟩ := CreateAccount_ok hcreate
    have hbb : b1 = b := by
      rw [hp1] at hparse
      exact Except.ok.inj hparse
    subst hbb
    have hpos : 0 < req.AccountID := by
      simp only [CreateAccountRequest.validateStruct, Bool.and_eq_true, decide_eq_true_eq] at hv
      exact lt_of_le_of_ne hv.1.2 (Ne.symm hv.1.1)
    have hkeep := runCreateAccounts_keeps_row lib others _ hrow
    have hget := @GetAccountByID_found lib Atoi c2 _ _ _ hatoi hpos hrepo hkeep
    refine ⟨by simp [DB.balance, hkeep], hget, fun hrender => ?_⟩
    exact ⟨_, hget, rfl, by rw [hparse]; exact hrender⟩
  · simp [handleCreateAccount, hv] at hcreate

/-- The sample reader reads `100.12345678` as that decimal. -/
theorem parseDecimal_example :
    Extern.sample.NewFromString "100.12345678" = .ok (10012345678 / 100000000) := by
  simp [Extern.sample, parseDecimal, digitsValue, Char.isDigit]
  norm_num

/-- The sample writer writes that decimal as `100.12345678`. -/
theorem renderDecimal_example :
    Extern.sample.DecimalString (10012345678 / 100000000) = "100.12345678" := by
  have hn : (10012345678 / 100000000 : ℚ).num = 5006172839 := by norm_num
  have hd : (10012345678 / 100000000 : ℚ).den = 50000000 := by norm_num
  simp only [Extern.sample, renderDecimal, hn, hd]
  rfl

/-- Instance of C15: account 100 is created with `100.12345678`; after a second creation
attempt with another balance, reading `/accounts/100` returns the id 100 and the balance
string `100.12345678`, which denotes the decimal that was sent. -/
theorem C15_create_get_round_trip_witness :
    (GetAccountByID Extern.sample parseInt (GinContext.routed "100")
        (runCreateAccounts Extern.sample
          (handleCreateAccount Extern.sample Validator.sample (GinContext.routed "") 1 DB.empty
            none ⟨100, "100.12345678"⟩).db
          [⟨GinContext.routed "", 2, none, ⟨100, "5"⟩⟩]).2
        none).result = .ok ⟨100, "100.12345678"⟩ ∧
      ∃ resp, (GetAccountByID Extern.sample parseInt (GinContext.routed "100")
          (runCreateAccounts Extern.sample
            (handleCreateAccount Extern.sample Validator.sample (GinContext.routed "") 1
              DB.empty none ⟨100, "100.12345678"⟩).db
            [⟨GinContext.routed "", 2, none, ⟨100, "5"⟩⟩]).2
          none).result = .ok resp ∧
        resp.AccountID = 100 ∧
        Extern.sample.NewFromString resp.Balance
          = Extern.sample.NewFromString "100.12345678" := by
  have h := C15_create_get_round_trip Extern.sample parseInt Validator.sample
    (GinContext.routed "") (GinContext.routed "100") 1 DB.empty none ⟨100, "100.12345678"⟩
    [⟨GinContext.routed "", 2, none, ⟨100, "5"⟩⟩] (10012345678 / 100000000)
    (by
      simp [handleCreateAccount, CreateAccountRequest.validateStruct, Validator.sample,
        numericTag, allDigits, CreateAccount, CreateAccountRequest.ToAccount, getRepo,
        GinContext.routed, AccountRepository.CreateAccount, Extern.sample, parseDecimal,
        digitsValue, Char.isDigit, DB.empty, Decimal.IsNegative]
      norm_num)
    parseDecimal_example
    (by simp [parseInt, digitsValue, Char.isDigit, GinContext.routed])
    (by simp [getRepo, GinContext.routed])
  refine ⟨?_, h.2.2 (by rw [renderDecimal_example]; exact parseDecimal_example)⟩
  rw [h.2.1, renderDecimal_example]

/-- C16: `GetAccountByID` answers `ErrInvalidAccountID`, without sending a statement, when
the path parameter is not read as an integer by `strconv.Atoi` or is read as an integer
that is at most 0.  For a positive id, the repository configured and the query served, it
answers `ErrAccountNotFound` when there is no row with the id, and the id with the
rendering of the stored balance when there is one.  In every case the database after the
call is the database before. -/
theorem C16_get_account_outcomes (lib : Extern) (Atoi : String → Except String Int)
    (c : GinContext) (db : DB) (driverErr : Option String) :
    (((∃ e, Atoi c.account_id = .error e) ∨ ∃ n, Atoi c.account_id = .ok n ∧ n ≤ 0) →
      (GetAccountByID lib Atoi c db driverErr).result = .error (.code ErrInvalidAccountID) ∧
      (GetAccountByID lib Atoi c db driverErr).trace = []) ∧
    (∀ n, Atoi c.account_id = .ok n → 0 < n → getRepo c = .ok () → db.accounts n = none →
      (GetAccountByID lib Atoi c db none).result = .error (.code ErrAccountNotFound)) ∧
    (∀ n r, Atoi c.account_id = .ok n → 0 < n → getRepo c = .ok () →
      db.accounts n = some r →
      (GetAccountByID lib Atoi c db none).result
        = .ok ⟨n, lib.DecimalString r.balance⟩) ∧
    (GetAccountByID lib Atoi c db driverErr).db = db := by
  refine ⟨?_, ?_, ?_, ?_⟩
  · rintro (⟨e, he⟩ | ⟨n, hn, hle⟩)
    · simp [GetAccountByID, he]
    · simp [GetAccountByID, hn, hle]
  · intro n hn hpos hrepo hrow
    simp [GetAccountByID, hn, not_le.mpr hpos, hrepo, AccountRepository.GetAccountByID,
      selectAccount, hrow]
  · intro n r hn hpos hrepo hrow
    exact GetAccountByID_found hn hpos hrepo hrow
  · unfold GetAccountByID
    rcases Atoi c.account_id with e | n
    · rfl
    · by_cases hle : n ≤ 0
      · simp [hle]
      · simp only [hle, if_false]
        rcases getRepo c with err | u
        · rfl
        · simp only
          rcases AccountRepository.GetAccountByID db driverErr n with err | (_ | acc) <;> rfl

/-- Instance of C16: the path parameter `-1` is answered with `ErrInvalidAccountID` and no
statement is sent. -/
theorem C16_get_account_outcomes_witness :
    (GetAccountByID Extern.sample parseInt (GinContext.routed "-1") (DB.ofList [(1, 1000)])
        none).result = .error (.code ErrInvalidAccountID) ∧
      (GetAccountByID Extern.sample parseInt (GinContext.routed "-1") (DB.ofList [(1, 1000)])
        none).trace = [] :=
  (C16_get_account_outcomes Extern.sample parseInt (GinContext.routed "-1")
    (DB.ofList [(1, 1000)]) none).1
    (Or.inr ⟨-1, by simp [parseInt, digitsValue, Char.isDigit, GinContext.routed],
      by decide⟩)

/-! ## The id of a new account -/

/-- Counterexample to C17 as stated: the handler answers the id 0 with `ErrInvalidParams`,
not with `ErrInvalidAccountID`; and `account.CreateAccount`, called with the id -1,
succeeds and stores the account. -/
theorem C17_nonpositive_id_counterexample :
    (handleCreateAccount Extern.sample Validator.sample (GinContext.routed "") 1 DB.empty none
        ⟨0, "10.00"⟩).result
        = .error (.code ⟨2, "validator param err: Field validation failed"⟩) ∧
      (handleCreateAccount Extern.sample Validator.sample (GinContext.routed "") 1 DB.empty
        none ⟨0, "10.00"⟩).result ≠ .error (.code ErrInvalidAccountID) ∧
      (CreateAccount Extern.sample (GinContext.routed "") 1 DB.empty none
        ⟨-1, "10.00"⟩).result = .ok () ∧
      (CreateAccount Extern.sample (GinContext.routed "") 1 DB.empty none
        ⟨-1, "10.00"⟩).db.accounts (-1) = some ⟨10, 1, 1⟩ := by
  have h1 : (handleCreateAccount Extern.sample Validator.sample (GinContext.routed "") 1
      DB.empty none ⟨0, "10.00"⟩).result
      = .error (.code ⟨2, "validator param err: Field validation failed"⟩) := by
    simp [handleCreateAccount, CreateAccountRequest.validateStruct, Validator.sample,
      NewWithMsg, ErrInvalidParams]
  have hp : Extern.sample.NewFromString "10.00" = .ok 10 := by
    simp [Extern.sample, parseDecimal, digitsValue, Char.isDigit]
    norm_num
  have h2 := @CreateAccount_fresh Extern.sample (GinContext.routed "") DB.empty ⟨-1, "10.00"⟩
    10 1 hp (by norm_num) (by simp [getRepo, GinContext.routed]) rfl
  refine ⟨h1, ?_, h2.1, h2.2⟩
  rw [h1]
  simp [ErrInvalidAccountID]

/-- C17, amended: a create-account request whose id is zero or negative is rejected by
the tag validation of the request handler (`required,min=0`), which runs before
`account.CreateAccount`: the error has the code of `ErrInvalidParams` (2) and is sent with
HTTP status 400, no statement is sent and the database is unchanged, so no account is
created.  `account.CreateAccount` itself does not look at the id: called with a free id
of any sign and a valid balance, it creates the account. -/
theorem C17_nonpositive_id_rejected_by_validation (lib : Extern) (v : Validator)
    (c : GinContext) (now : Nat) (db : DB) (driverErr : Option String)
    (req : CreateAccountRequest) (hid : req.AccountID ≤ 0) :
    (handleCreateAccount lib v c now db driverErr req).result
        = .error (.code (NewWithMsg ErrInvalidParams
            ("validator param err: " ++ v.errorText req))) ∧
      GetCode (some (.code (NewWithMsg ErrInvalidParams
        ("validator param err: " ++ v.errorText req)))) = 2 ∧
      (PackError (some (.code (NewWithMsg ErrInvalidParams
        ("validator param err: " ++ v.errorText req))))).1 = 400 ∧
      (handleCreateAccount lib v c now db driverErr req).db = db ∧
      (handleCreateAccount lib v c now db driverErr req).trace = [] ∧
      (∀ b, lib.NewFromString req.InitialBalance = .ok b → 0 ≤ b → getRepo c = .ok () →
        db.accounts req.AccountID = none →
        (CreateAccount lib c now db none req).result = .ok ()) := by
  have hv : req.validateStruct v = false := by
    rcases lt_or_eq_of_le hid with h | h
    · simp [CreateAccountRequest.validateStruct, not_le.mpr h]
    · simp [CreateAccountRequest.validateStruct, h]
  refine ⟨by simp [handleCreateAccount, hv], rfl, rfl, by simp [handleCreateAccount, hv],
    by simp [handleCreateAccount, hv], fun b hp hb hrepo hfree => ?_⟩
  exact (CreateAccount_fresh now hp hb hrepo hfree).1

/-- Instance of amended C17: the id -1 is rejected by the validation and the database
stays empty. -/
theorem C17_nonpositive_id_rejected_by_validation_witness :
    (handleCreateAccount Extern.sample Validator.sample (GinContext.routed "") 1 DB.empty none
        ⟨-1, "10.00"⟩).result
        = .error (.code (NewWithMsg ErrInvalidParams
            ("validator param err: " ++ Validator.sample.errorText ⟨-1, "10.00"⟩))) ∧
      (handleCreateAccount Extern.sample Validator.sample (GinContext.routed "") 1 DB.empty
        none ⟨-1, "10.00"⟩).db = DB.empty :=
  have h := C17_nonpositive_id_rejected_by_validation Extern.sample Validator.sample
    (GinContext.routed "") 1 DB.empty none ⟨-1, "10.00"⟩ (by decide)
  ⟨h.1, h.2.2.2.1⟩

/-! ## Status, code and message of an error -/

/-- C18: `mapErrorToStatusCode` maps a `CodeError`, whatever its message, by its code: the
codes of `ErrInvalidParams`, `ErrNegativeBalance`, `ErrInvalidAccountID`,
`ErrSameAccountTransfer` and `ErrInsufficientFunds` to 400; those of `ErrAccountNotFound`,
`ErrSourceAccountNotFound` and `ErrDestinationAccountNotFound` to 404; that of
`ErrAccountExists` to 409; that of `ErrTimeout` to 408; that of `ErrSystem` and every
code outside the table (below 1 or above 11) to 500.  An error that is not a `CodeError`,
and the nil error, are mapped to 500. -/
theorem C18_status_by_kind (e : CodeError) (msg : String) :
    ((e.Code = ErrInvalidParams.Code ∨ e.Code = ErrNegativeBalance.Code ∨
        e.Code = ErrInvalidAccountID.Code ∨ e.Code = ErrSameAccountTransfer.Code ∨
        e.Code = ErrInsufficientFunds.Code) →
      mapErrorToStatusCode (some (.code e)) = 400) ∧
    ((e.Code = ErrAccountNotFound.Code ∨ e.Code = ErrSourceAccountNotFound.Code ∨
        e.Code = ErrDestinationAccountNotFound.Code) →
      mapErrorToStatusCode (some (.code e)) = 404) ∧
    (e.Code = ErrAccountExists.Code → mapErrorToStatusCode (some (.code e)) = 409) ∧
    (e.Code = ErrTimeout.Code → mapErrorToStatusCode (some (.code e)) = 408) ∧
    ((e.Code = ErrSystem.Code ∨ e.Code < 1 ∨ 11 < e.Code) →
      mapErrorToStatusCode (some (.code e)) = 500) ∧
    mapErrorToStatusCode (some (.plain msg)) = 500 ∧
    mapErrorToStatusCode none = 500 := by
  simp only [mapErrorToStatusCode, ErrSystem, ErrInvalidParams, ErrTimeout, ErrNegativeBalance,
    ErrAccountExists, ErrInvalidAccountID, ErrAccountNotFound, ErrSameAccountTransfer,
    ErrInsufficientFunds, ErrSourceAccountNotFound, ErrDestinationAccountNotFound,
    StatusBadRequest, StatusNotFound, StatusRequestTimeout, StatusConflict,
    StatusInternalServerError]
  refine ⟨?_, ?_, ?_, ?_, ?_, trivial, trivial⟩
  · rintro (h | h | h | h | h) <;> simp [h]
  · rintro (h | h | h) <;> simp [h]
  · intro h; simp [h]
  · intro h; simp [h]
  · rintro (h | h | h)
    · simp [h]
    · repeat rw [if_neg (by omega)]
    · repeat rw [if_neg (by omega)]

/-- Instance of C18: the error `ErrInvalidParams` with another message is sent with
status 400. -/
theorem C18_status_by_kind_witness :
    mapErrorToStatusCode (some (.code (NewWithMsg ErrInvalidParams "amount must be positive")))
      = 400 :=
  (C18_status_by_kind (NewWithMsg ErrInvalidParams "amount must be positive") "").1
    (Or.inl rfl)

/-- C19: `GetCode` and `GetMsg` return 0 and `success` for the nil error, the code and the
message of the error for every `CodeError`, and 1 and `system error` for every other
error; an error built by `NewWithMsg` has the code of its base error and the new message;
`PackError` puts exactly this code and this message into the response. -/
theorem C19_code_and_message (e base : CodeError) (msg : String) (err : Option GoError) :
    GetCode none = 0 ∧ GetMsg none = "success" ∧
    GetCode (some (.code e)) = e.Code ∧ GetMsg (some (.code e)) = e.Msg ∧
    (NewWithMsg base msg).Code = base.Code ∧
    GetCode (some (.code (NewWithMsg base msg))) = base.Code ∧
    GetMsg (some (.code (NewWithMsg base msg))) = msg ∧
    GetCode (some (.plain msg)) = 1 ∧ GetMsg (some (.plain msg)) = "system error" ∧
    (PackError err).2 = ⟨GetCode err, GetMsg err⟩ :=
  ⟨rfl, rfl, rfl, rfl, rfl, rfl, rfl, rfl, rfl, rfl⟩

/-! ## System errors -/

theorem selectBalanceForUpdate_failed {db : DB} {driverErr : Option String} {id : Int}
    {e : String} (h : selectBalanceForUpdate db driverErr id = .failed e) :
    driverErr = some e := by
  unfold selectBalanceForUpdate at h
  rcases driverErr with _ | e1
  · rcases hr : db.accounts id with _ | r <;> simp [hr] at h
  · simp only [RowResult.failed.injEq] at h
    rw [h]

/-- An error of the locking reads is a missing account or a driver error. -/
theorem lockAccounts_error {db : DB} {env : TxEnv} {src dst : Int} {err : GoError}
    {locks : List Stmt} (h : lockAccounts db env src dst = (.error err, locks)) :
    err = .code ErrSourceAccountNotFound ∨ err = .code ErrDestinationAccountNotFound ∨
      ∃ e, (env.lockFirstErr = some e ∨ env.lockSecondErr = some e) ∧
        err = .plain ("failed to lock source account: " ++ e) := by
  unfold lockAccounts at h
  by_cases hlt : src < dst
  · simp only [hlt, if_true] at h
    rcases h1 : selectBalanceForUpdate db env.lockFirstErr src with b | _ | e
    · rcases h2 : selectBalanceForUpdate db env.lockSecondErr dst with b2 | _ | e2
      · simp [h1, h2] at h
      · simp only [h1, h2, Prod.mk.injEq, Except.error.injEq] at h
        exact Or.inr (Or.inl h.1.symm)
      · simp only [h1, h2, Prod.mk.injEq, Except.error.injEq] at h
        exact Or.inr (Or.inr ⟨e2, Or.inr (selectBalanceForUpdate_failed h2), h.1.symm⟩)
    · simp only [h1, Prod.mk.injEq, Except.error.injEq] at h
      exact Or.inl h.1.symm
    · simp only [h1, Prod.mk.injEq, Except.error.injEq] at h
      exact Or.inr (Or.inr ⟨e, Or.inl (selectBalanceForUpdate_failed h1), h.1.symm⟩)
  · simp only [hlt, if_false] at h
    rcases h1 : selectBalanceForUpdate db env.lockFirstErr dst with b | _ | e
    · rcases h2 : selectBalanceForUpdate db env.lockSecondErr src with b2 | _ | e2
      · simp [h1, h2] at h
      · simp only [h1, h2, Prod.mk.injEq, Except.error.injEq] at h
        exact Or.inl h.1.symm
      · simp only [h1, h2, Prod.mk.injEq, Except.error.injEq] at h
        exact Or.inr (Or.inr ⟨e2, Or.inr (selectBalanceForUpdate_failed h2), h.1.symm⟩)
    · simp only [h1, Prod.mk.injEq, Except.error.injEq] at h
      exact Or.inr (Or.inl h.1.symm)
    · simp only [h1, Prod.mk.injEq, Except.error.injEq] at h
      exact Or.inr (Or.inr ⟨e, Or.inl (selectBalanceForUpdate_failed h1), h.1.symm⟩)

/-- The errors of `ProcessTransfer`: a missing account, insufficient funds, or an error
that is not a `CodeError` and carries the driver error of a statement. -/
theorem ProcessTransfer_error_kinds {db : DB} {env : TxEnv} {src dst : Int}
    {amount : Decimal} {err : GoError}
    (h : (ProcessTransfer db env src dst amount).result = .error err) :
    err = .code ErrSourceAccountNotFound ∨ err = .code ErrDestinationAccountNotFound ∨
      err = .code ErrInsufficientFunds ∨ ∃ m, err = .plain m ∧ env.failureText m := by
  rcases hb : env.beginErr with _ | e0
  · rcases hl : lockAccounts db env src dst with ⟨lerr | ⟨sb, tb⟩, locks⟩
    · simp only [ProcessTransfer, DB.Begin, Tx.Rollback, hb, hl, Except.error.injEq] at h
      subst h
      rcases lockAccounts_error hl with h1 | h1 | ⟨e, he, h1⟩
      · exact Or.inl h1
      · exact Or.inr (Or.inl h1)
      · exact Or.inr (Or.inr (Or.inr ⟨_, h1, Or.inr (Or.inl ⟨e, he, rfl⟩)⟩))
    · by_cases hlt : Decimal.LessThan sb amount = true
      · simp only [ProcessTransfer, DB.Begin, Tx.Rollback, hb, hl, hlt, if_true,
          Except.error.injEq] at h
        exact Or.inr (Or.inr (Or.inl h.symm))
      · refine Or.inr (Or.inr (Or.inr ?_))
        rcases h1 : env.debitErr with _ | e1
        · rcases h2 : env.creditErr with _ | e2
          · rcases h3 : env.insertErr with _ | e3
            · rcases h4 : env.commitErr with _ | e4
              · simp [ProcessTransfer, hb, hl, hlt, h1, h2, h3, h4] at h
              · simp only [ProcessTransfer, DB.Begin, Tx.Exec, Tx.Rollback, hb, hl, hlt, h1, h2,
                  h3, h4, Bool.false_eq_true, if_false, Except.error.injEq] at h
                exact ⟨_, h.symm, Or.inr (Or.inr (Or.inr (Or.inr (Or.inr ⟨e4, h4, rfl⟩))))⟩
            · simp only [ProcessTransfer, DB.Begin, Tx.Exec, Tx.Rollback, hb, hl, hlt, h1, h2,
                h3, Bool.false_eq_true, if_false, Except.error.injEq] at h
              exact ⟨_, h.symm, Or.inr (Or.inr (Or.inr (Or.inr (Or.inl ⟨e3, h3, rfl⟩))))⟩
          · simp only [ProcessTransfer, DB.Begin, Tx.Exec, Tx.Rollback, hb, hl, hlt, h1, h2,
              Bool.false_eq_true, if_false, Except.error.injEq] at h
            exact ⟨_, h.symm, Or.inr (Or.inr (Or.inr (Or.inl ⟨e2, h2, rfl⟩)))⟩
        · simp only [ProcessTransfer, DB.Begin, Tx.Exec, Tx.Rollback, hb, hl, hlt, h1,
            Bool.false_eq_true, if_false, Except.error.injEq] at h
          exact ⟨_, h.symm, Or.inr (Or.inr (Or.inl ⟨e1, h1, rfl⟩))⟩
  · simp only [ProcessTransfer, hb, Except.error.injEq] at h
    exact Or.inr (Or.inr (Or.inr ⟨_, h.symm, Or.inl ⟨e0, hb, rfl⟩⟩))

/-- An error of `getTransferRepo` is a `CodeError`. -/
theorem getTransferRepo_error {c : GinContext} {err : GoError}
    (h : getTransferRepo c = .error err) : ∃ ce, err = .code ce := by
  unfold getTransferRepo at h
  rcases hc : c.appConfig with _ | (cfg | _)
  · simp only [hc, Except.error.injEq] at h
    exact ⟨_, h.symm⟩
  · by_cases hcfg : cfg.TransferRepository = true
    · simp [hc, hcfg] at h
    · simp only [hc, hcfg, Bool.false_eq_true, if_false, Except.error.injEq] at h
      exact ⟨_, h.symm⟩
  · simp only [hc, Except.error.injEq] at h
    exact ⟨_, h.symm⟩

/-- An error of `ValidateRequest` is a `CodeError`. -/
theorem ValidateRequest_some {lib : Extern} {req : TransferRequest} {err : GoError}
    (h : req.ValidateRequest lib = some err) : ∃ ce, err = .code ce := by
  unfold TransferRequest.ValidateRequest at h
  by_cases hid : req.SourceAccountID = req.DestinationAccountID
  · simp only [hid, if_true, Option.some.injEq] at h
    exact ⟨_, h.symm⟩
  · rcases hp : lib.NewFromString req.Amount with pe | a
    · simp only [hid, hp, if_false, Option.some.injEq] at h
      exact ⟨_, h.symm⟩
    · by_cases hneg : (Decimal.IsNegative a || Decimal.IsZero a) = true
      · simp only [hid, hp, hneg, if_true, if_false, Option.some.injEq] at h
        exact ⟨_, h.symm⟩
      · simp [hid, hp, hneg] at h

set_option maxRecDepth 20000 in
theorem connectionRefused_not_duplicate :
    stringsContains "connection refused" "23505" = false := by decide

/-- Counterexample to C20 as stated: the connection is refused while `CreateAccount`
inserts the row; the error packed for the caller has code 1, but its message is not
`system error`: it carries the text of the storage error. -/
theorem C20_system_error_message_counterexample :
    (CreateAccount Extern.sample (GinContext.routed "") 1 DB.empty (some "connection refused")
        ⟨1, "10.00"⟩).result
        = .error (.code ⟨1, "database error: failed to create account: connection refused"⟩) ∧
      (PackError (some (.code
        ⟨1, "database error: failed to create account: connection refused"⟩))).2
        = ⟨1, "database error: failed to create account: connection refused"⟩ ∧
      (PackError (some (.code
        ⟨1, "database error: failed to create account: connection refused"⟩))).2.Message
        ≠ "system error" := by
  have hc := connectionRefused_not_duplicate
  have hp : Extern.sample.NewFromString "10.00" = .ok 10 := by
    simp [Extern.sample, parseDecimal, digitsValue, Char.isDigit]
    norm_num
  refine ⟨?_, rfl, by decide⟩
  simp [CreateAccount, @ToAccount_ok Extern.sample ⟨1, "10.00"⟩ 10 1 hp (by norm_num), getRepo,
    GinContext.routed, AccountRepository.CreateAccount, hc, NewWithMsg, ErrSystem]

/-- What `ProcessTransfer` returns when a statement it reaches fails: the error made by
`fmt.Errorf` for that statement. -/
theorem ProcessTransfer_storage_failure (db : DB) (env : TxEnv) (src dst : Int)
    (amount : Decimal) :
    (∀ e, env.beginErr = some e →
      (ProcessTransfer db env src dst amount).result
        = .error (.plain ("failed to begin transaction: " ++ e))) ∧
    (env.beginErr = none → ∀ e, env.lockFirstErr = some e →
      (ProcessTransfer db env src dst amount).result
        = .error (.plain ("failed to lock source account: " ++ e))) ∧
    (env.beginErr = none → env.lockFirstErr = none →
      (∃ r, db.accounts (min src dst) = some r) → ∀ e, env.lockSecondErr = some e →
      (ProcessTransfer db env src dst amount).result
        = .error (.plain ("failed to lock source account: " ++ e))) ∧
    (env.locksServed → ∀ rs rd, db.accounts src = some rs → db.accounts dst = some rd →
      ¬ rs.balance < amount →
      (∀ e, env.debitErr = some e →
        (ProcessTransfer db env src dst amount).result
          = .error (.plain ("failed to debit source account: " ++ e))) ∧
      (env.debitErr = none → ∀ e, env.creditErr = some e →
        (ProcessTransfer db env src dst amount).result
          = .error (.plain ("failed to credit destination account: " ++ e))) ∧
      (env.debitErr = none → env.creditErr = none → ∀ e, env.insertErr = some e →
        (ProcessTransfer db env src dst amount).result
          = .error (.plain ("failed to create transfer record: " ++ e))) ∧
      (env.debitErr = none → env.creditErr = none → env.insertErr = none →
        ∀ e, env.commitErr = some e →
        (ProcessTransfer db env src dst amount).result
          = .error (.plain ("failed to commit transaction: " ++ e)))) := by
  refine ⟨?_, ?_, ?_, ?_⟩
  · intro e hb
    simp [ProcessTransfer, hb]
  · intro hb e h1
    by_cases hlt : src < dst <;>
      simp [ProcessTransfer, lockAccounts, selectBalanceForUpdate, hb, h1, hlt]
  · rintro hb h1 ⟨r, hr⟩ e h2
    by_cases hlt : src < dst
    · rw [min_eq_left hlt.le] at hr
      simp [ProcessTransfer, lockAccounts, selectBalanceForUpdate, hb, h1, h2, hr, hlt]
    · rw [min_eq_right (not_lt.mp hlt)] at hr
      simp [ProcessTransfer, lockAccounts, selectBalanceForUpdate, hb, h1, h2, hr, hlt]
  · rintro ⟨hb, h1, h2⟩ rs rd hs hd hfunds
    have hl := lockAccounts_served h1 h2 hs hd
    rcases hlk : lockAccounts db env src dst with ⟨res, locks⟩
    rw [hlk] at hl
    simp only at hl
    subst hl
    refine ⟨?_, ?_, ?_, ?_⟩
    · intro e h3
      simp [ProcessTransfer, hb, hlk, Decimal.LessThan, hfunds, h3]
    · intro h3 e h4
      simp [ProcessTransfer, hb, hlk, Decimal.LessThan, hfunds, h3, h4]
    · intro h3 h4 e h5
      simp [ProcessTransfer, hb, hlk, Decimal.LessThan, hfunds, h3, h4, h5]
    · intro h3 h4 h5 e h6
      simp [ProcessTransfer, hb, hlk, Decimal.LessThan, hfunds, h3, h4, h5, h6]

/-- For a request that passes validation, the repository configured, an error that is not
a `CodeError` returned by `ProcessTransfer` is returned unchanged by `CreateTransfer` and
packed as a system error. -/
theorem CreateTransfer_returnsSystemError {lib : Extern} {c : GinContext} {now : Nat}
    {db : DB} {env : TxEnv} {treq : TransferRequest} {amount : Decimal} {m : String}
    (hv : treq.ValidateRequest lib = none) (hrepo : getTransferRepo c = .ok ())
    (hparse : lib.NewFromString treq.Amount = .ok amount)
    (h : (ProcessTransfer db env treq.SourceAccountID treq.DestinationAccountID amount).result
      = .error (.plain m)) :
    returnsSystemError (CreateTransfer lib c now db env treq).result m := by
  refine ⟨?_, rfl⟩
  simp [CreateTransfer, hv, hrepo, hparse, h]

/-- C20, amended: a storage failure is packed for the caller with code 1 and HTTP status
500 in all three operations.  In `CreateAccount` (for a driver error whose text does not
contain `23505`, the code's test for a duplicate key) and in `GetAccountByID` the packed
message is `database error: ` followed by the text of the storage error.  In
`CreateTransfer`, for a request that passes validation, a failure of `Begin`, of the first
or second locking read, of the debit, of the credit, of the record insert or of `Commit`,
each at the point where the call reaches that statement, is returned as an error that is
not a `CodeError` and packed with the message `system error`, without the storage text.
Conversely every error of `CreateTransfer` that is not a `CodeError` carries the driver
error of one of these statements, and for a request that passes validation every other
error is a missing account or insufficient funds. -/
theorem C20_system_errors_packed (lib : Extern) (Atoi : String → Except String Int)
    (c : GinContext) (now : Nat) (db : DB) (env : TxEnv) (req : CreateAccountRequest)
    (treq : TransferRequest) (e : String) (amount : Decimal) :
    (∀ b, lib.NewFromString req.InitialBalance = .ok b → 0 ≤ b → getRepo c = .ok () →
      stringsContains e "23505" = false →
      (CreateAccount lib c now db (some e) req).result
        = .error (.code (NewWithMsg ErrSystem
            ("database error: failed to create account: " ++ e))) ∧
      PackError (some (.code (NewWithMsg ErrSystem
          ("database error: failed to create account: " ++ e))))
        = (500, ⟨1, "database error: failed to create account: " ++ e⟩)) ∧
    (∀ n, Atoi c.account_id = .ok n → 0 < n → getRepo c = .ok () →
      (GetAccountByID lib Atoi c db (some e)).result
        = .error (.code (NewWithMsg ErrSystem
            ("database error: failed to get account: " ++ e))) ∧
      PackError (some (.code (NewWithMsg ErrSystem
          ("database error: failed to get account: " ++ e))))
        = (500, ⟨1, "database error: failed to get account: " ++ e⟩)) ∧
    (treq.ValidateRequest lib = none → getTransferRepo c = .ok () →
      lib.NewFromString treq.Amount = .ok amount →
      (∀ e0, env.beginErr = some e0 →
        returnsSystemError (CreateTransfer lib c now db env treq).result
          ("failed to begin transaction: " ++ e0)) ∧
      (env.beginErr = none → ∀ e1, env.lockFirstErr = some e1 →
        returnsSystemError (CreateTransfer lib c now db env treq).result
          ("failed to lock source account: " ++ e1)) ∧
      (env.beginErr = none → env.lockFirstErr = none →
        (∃ r, db.accounts (min treq.SourceAccountID treq.DestinationAccountID) = some r) →
        ∀ e2, env.lockSecondErr = some e2 →
        returnsSystemError (CreateTransfer lib c now db env treq).result
          ("failed to lock source account: " ++ e2)) ∧
      (env.locksServed → ∀ rs rd, db.accounts treq.SourceAccountID = some rs →
        db.accounts treq.DestinationAccountID = some rd → ¬ rs.balance < amount →
        (∀ e3, env.debitErr = some e3 →
          returnsSystemError (CreateTransfer lib c now db env treq).result
            ("failed to debit source account: " ++ e3)) ∧
        (env.debitErr = none → ∀ e4, env.creditErr = some e4 →
          returnsSystemError (CreateTransfer lib c now db env treq).result
            ("failed to credit destination account: " ++ e4)) ∧
        (env.debitErr = none → env.creditErr = none → ∀ e5, env.insertErr = some e5 →
          returnsSystemError (CreateTransfer lib c now db env treq).result
            ("failed to create transfer record: " ++ e5)) ∧
        (env.debitErr = none → env.creditErr = none → env.insertErr = none →
          ∀ e6, env.commitErr = some e6 →
          returnsSystemError (CreateTransfer lib c now db env treq).result
            ("failed to commit transaction: " ++ e6)))) ∧
    (∀ m, (CreateTransfer lib c now db env treq).result = .error (.plain m) →
      env.failureText m ∧ PackError (some (.plain m)) = (500, ⟨1, "system error"⟩)) ∧
    (∀ err, treq.ValidateRequest lib = none → getTransferRepo c = .ok () →
      (CreateTransfer lib c now db env treq).result = .error err →
      err = .code ErrSourceAccountNotFound ∨ err = .code ErrDestinationAccountNotFound ∨
        err = .code ErrInsufficientFunds ∨ ∃ m, err = .plain m ∧ env.failureText m) := by
  have hct : ∀ err, (CreateTransfer lib c now db env treq).result = .error err →
      (∃ ce, err = .code ce ∧ (treq.ValidateRequest lib ≠ none ∨
        getTransferRepo c ≠ .ok ())) ∨
      ∃ a, (ProcessTransfer db env treq.SourceAccountID treq.DestinationAccountID a).result
        = .error err := by
    intro err h
    rcases hv : treq.ValidateRequest lib with _ | verr
    · obtain ⟨hne, a, hp, hpos⟩ := ValidateRequest_none hv
      rcases hr : getTransferRepo c with rerr | u
      · left
        simp only [CreateTransfer, hv, hr, Except.error.injEq] at h
        subst h
        obtain ⟨ce, hce⟩ := getTransferRepo_error hr
        exact ⟨ce, hce, Or.inr (by simp)⟩
      · right
        obtain ⟨-, -, hres⟩ := @CreateTransfer_valid lib c now db env treq a hne hp hpos hr
        rw [hres] at h
        refine ⟨a, ?_⟩
        rcases ho : (ProcessTransfer db env treq.SourceAccountID treq.DestinationAccountID
            a).result with e1 | ⟨t, nsb, ndb⟩
        · simp only [ho, Except.error.injEq] at h
          rw [h]
        · simp [ho] at h
    · left
      simp only [CreateTransfer, hv, Except.error.injEq] at h
      subst h
      obtain ⟨ce, hce⟩ := ValidateRequest_some hv
      exact ⟨ce, hce, Or.inl (by simp)⟩
  refine ⟨?_, ?_, ?_, ?_, ?_⟩
  · intro b hp hb hrepo hc
    refine ⟨?_, rfl⟩
    have hm : "database error: " ++ ("failed to create account: " ++ e)
        = "database error: failed to create account: " ++ e := by
      rw [← String.append_assoc]; rfl
    simp [CreateAccount, ToAccount_ok now hp hb, hrepo, AccountRepository.CreateAccount, hc, hm]
  · intro n hn hpos hrepo
    refine ⟨?_, rfl⟩
    have hm : "database error: " ++ ("failed to get account: " ++ e)
        = "database error: failed to get account: " ++ e := by
      rw [← String.append_assoc]; rfl
    simp [GetAccountByID, hn, not_le.mpr hpos, hrepo, AccountRepository.GetAccountByID,
      selectAccount, GoError.Error, hm]
  · intro hv hrepo hparse
    obtain ⟨f1, f2, f3, f4⟩ := ProcessTransfer_storage_failure db env treq.SourceAccountID
      treq.DestinationAccountID amount
    refine ⟨fun e0 h => CreateTransfer_returnsSystemError hv hrepo hparse (f1 e0 h),
      fun hb e1 h => CreateTransfer_returnsSystemError hv hrepo hparse (f2 hb e1 h),
      fun hb h1 hr e2 h => CreateTransfer_returnsSystemError hv hrepo hparse (f3 hb h1 hr e2 h),
      fun hserved rs rd hs hd hfunds => ?_⟩
    obtain ⟨g1, g2, g3, g4⟩ := f4 hserved rs rd hs hd hfunds
    exact ⟨fun e3 h => CreateTransfer_returnsSystemError hv hrepo hparse (g1 e3 h),
      fun h3 e4 h => CreateTransfer_returnsSystemError hv hrepo hparse (g2 h3 e4 h),
      fun h3 h4 e5 h => CreateTransfer_returnsSystemError hv hrepo hparse (g3 h3 h4 e5 h),
      fun h3 h4 h5 e6 h => CreateTransfer_returnsSystemError hv hrepo hparse (g4 h3 h4 h5 e6 h)⟩
  · intro m h
    refine ⟨?_, rfl⟩
    rcases hct _ h with ⟨ce, hce, -⟩ | ⟨a, ha⟩
    · exact GoError.noConfusion hce
    · rcases ProcessTransfer_error_kinds ha with h1 | h1 | h1 | ⟨m1, h1, h2⟩
      · exact GoError.noConfusion h1
      · exact GoError.noConfusion h1
      · exact GoError.noConfusion h1
      · rw [GoError.plain.injEq] at h1
        rw [h1]
        exact h2
  · intro err hv hr h
    rcases hct _ h with ⟨ce, -, hbad | hbad⟩ | ⟨a, ha⟩
    · exact absurd hv hbad
    · exact absurd hr hbad
    · exact ProcessTransfer_error_kinds ha

/-- Instance of amended C20: the connection is refused.  In `CreateTransfer` at `Begin`:
the call returns the `fmt.Errorf` error and the caller receives status 500, code 1 and the
message `system error`.  In `GetAccountByID` at the query: the caller receives status 500,
code 1 and the message `database error: failed to get account: connection refused`. -/
theorem C20_system_errors_packed_witness :
    returnsSystemError
        (CreateTransfer Extern.sample (GinContext.routed "7") 9
          (DB.ofList [(1, 1000), (2, 500)])
          ⟨some "connection refused", none, none, none, none, none, none, 9, 1⟩
          ⟨1, 2, "100.50"⟩).result
        ("failed to begin transaction: " ++ "connection refused") ∧
      (GetAccountByID Extern.sample parseInt (GinContext.routed "7")
          (DB.ofList [(1, 1000), (2, 500)]) (some "connection refused")).result
        = .error (.code (NewWithMsg ErrSystem
            ("database error: failed to get account: " ++ "connection refused"))) ∧
      PackError (some (.code (NewWithMsg ErrSystem
          ("database error: failed to get account: " ++ "connection refused"))))
        = (500, ⟨1, "database error: failed to get account: " ++ "connection refused"⟩) :=
  have h := C20_system_errors_packed Extern.sample parseInt (GinContext.routed "7") 9
    (DB.ofList [(1, 1000), (2, 500)])
    ⟨some "connection refused", none, none, none, none, none, none, 9, 1⟩ ⟨1, "10.00"⟩
    ⟨1, 2, "100.50"⟩ "connection refused" (201 / 2)
  ⟨(h.2.2.1
      (by
        simp [TransferRequest.ValidateRequest, Extern.sample, parseDecimal, digitsValue,
          Char.isDigit, Decimal.IsNegative, Decimal.IsZero]
        norm_num)
      (by simp [getTransferRepo, GinContext.routed])
      (by
        simp [Extern.sample, parseDecimal, digitsValue, Char.isDigit]
        norm_num)).1 "connection refused" rfl,
    h.2.1 7 (by simp [parseInt, digitsValue, Char.isDigit, GinContext.routed]) (by decide)
      (by simp [getRepo, GinContext.routed])⟩

/-! ## Sequences of transfers -/

/-- Stored balance of any account after a committed transfer. -/
theorem committed_balance (db : DB) (env : TxEnv) (src dst : Int) (amount : Decimal)
    (id : Int) :
    (committed db env src dst amount).balance id
      = (db.balance id).map fun b =>
          b - (if src = id then amount else 0) + (if dst = id then amount else 0) := by
  rcases hr : db.accounts id with _ | r
  · simp only [committed, insertTransaction, updateBalance, DB.balance, hr]
    split_ifs <;> simp [hr]
  · by_cases h1 : src = id
    · by_cases h2 : dst = id
      · subst h1
        subst h2
        simp [committed, insertTransaction, updateBalance, DB.balance, hr]
      · subst h1
        have h2' : ¬ src = dst := fun h => h2 h.symm
        simp [committed, insertTransaction, updateBalance, DB.balance, hr, h2, h2']
    · have h1' : ¬ id = src := fun h => h1 h.symm
      by_cases h2 : dst = id
      · subst h2
        simp [committed, insertTransaction, updateBalance, DB.balance, hr, h1, h1']
      · have h2' : ¬ id = dst := fun h => h2 h.symm
        simp [committed, insertTransaction, updateBalance, DB.balance, hr, h1, h1', h2, h2']

/-- A call in which every statement is served, both accounts exist and the source holds at
least the amount succeeds and commits. -/
theorem ProcessTransfer_funded {db : DB} {env : TxEnv} {src dst : Int} (amount : Decimal)
    {bs bd : Decimal} (henv : env.allServed) (hs : db.balance src = some bs) (hd : db.balance dst = some bd)
    (hfunds : amount ≤ bs) :
    ∃ v, (ProcessTransfer db env src dst amount).result = .ok v ∧
      (ProcessTransfer db env src dst amount).db = committed db env src dst amount := by
  obtain ⟨rs, hrs, hbs⟩ := balance_eq_some.mp hs
  obtain ⟨rd, hrd, -⟩ := balance_eq_some.mp hd
  obtain ⟨h1, h2⟩ := ProcessTransfer_served henv hrs hrd (by rw [hbs]; exact not_lt.mpr hfunds)
  exact ⟨_, h1, h2⟩

/-- C21: for every database and every sequence of `ProcessTransfer` calls executed one
after another that all succeed, the final stored balance of every account is its initial
balance plus the sum of the amounts of the calls it is the destination of minus the sum of
the amounts of the calls it is the source of. -/
theorem C21_final_balance_is_net_flow (calls : List TransferCall) (db : DB) (id : Int)
    (b0 : Decimal) (hall : ∀ r ∈ (runTransfers db calls).1, ∃ v, r = .ok v)
    (h0 : db.balance id = some b0) :
    (runTransfers db calls).2.balance id = some (b0 + received id calls - sent id calls) := by
  induction calls generalizing db b0 with
  | nil => simp [runTransfers, received, sent, h0]
  | cons c cs ih =>
    simp only [runTransfers, List.mem_cons, forall_eq_or_imp] at hall ⊢
    obtain ⟨⟨⟨t, nsb, ndb⟩, hok⟩, hrest⟩ := hall
    obtain ⟨rs, rd, -, -, -, hdb, -, -, -⟩ := ProcessTransfer_ok hok
    have hb : (ProcessTransfer db c.env c.source c.dest c.amount).db.balance id
        = some (b0 - (if c.source = id then c.amount else 0)
            + (if c.dest = id then c.amount else 0)) := by
      rw [hdb, committed_balance, h0]
      rfl
    rw [ih _ _ hrest hb]
    simp only [received, sent]
    congr 1
    ring

/-- Instance of C21: A = 1000.12345678 and B = 500.98765432; A to B 100.12345678, B to A
50.98765432, A to B 25.55555555 leave A = 925.43209877. -/
theorem C21_final_balance_is_net_flow_witness :
    (runTransfers (DB.ofList [(1, 100012345678 / 100000000), (2, 50098765432 / 100000000)])
        [⟨TxEnv.healthy 1 1, 1, 2, 10012345678 / 100000000⟩,
          ⟨TxEnv.healthy 2 2, 2, 1, 5098765432 / 100000000⟩,
          ⟨TxEnv.healthy 3 3, 1, 2, 2555555555 / 100000000⟩]).2.balance 1
      = some (92543209877 / 100000000) := by
  have hserved : ∀ n i, (TxEnv.healthy n i).allServed := by
    intro n i
    simp [TxEnv.allServed, TxEnv.locksServed, TxEnv.healthy]
  have a1 : (DB.ofList [(1, 100012345678 / 100000000),
      (2, 50098765432 / 100000000)]).balance 1 = some (100012345678 / 100000000) := by
    simp [DB.balance, DB.ofList, List.lookup]
  have a2 : (DB.ofList [(1, 100012345678 / 100000000),
      (2, 50098765432 / 100000000)]).balance 2 = some (50098765432 / 100000000) := by
    simp [DB.balance, DB.ofList, List.lookup]
  obtain ⟨v1, r1, d1⟩ := ProcessTransfer_funded (10012345678 / 100000000)
    (hserved 1 1) a1 a2 (by norm_num)
  have b1 := committed_balance (DB.ofList [(1, 100012345678 / 100000000),
      (2, 50098765432 / 100000000)]) (TxEnv.healthy 1 1) 1 2 (10012345678 / 100000000) 1
  have b2 := committed_balance (DB.ofList [(1, 100012345678 / 100000000),
      (2, 50098765432 / 100000000)]) (TxEnv.healthy 1 1) 1 2 (10012345678 / 100000000) 2
  rw [a1] at b1
  rw [a2] at b2
  simp only [Option.map_some'] at b1 b2
  obtain ⟨v2, r2, d2⟩ := ProcessTransfer_funded (5098765432 / 100000000)
    (hserved 2 2) b2 b1 (by norm_num)
  have c1 := committed_balance (committed (DB.ofList [(1, 100012345678 / 100000000),
      (2, 50098765432 / 100000000)]) (TxEnv.healthy 1 1) 1 2 (10012345678 / 100000000))
      (TxEnv.healthy 2 2) 2 1 (5098765432 / 100000000) 1
  have c2 := committed_balance (committed (DB.ofList [(1, 100012345678 / 100000000),
      (2, 50098765432 / 100000000)]) (TxEnv.healthy 1 1) 1 2 (10012345678 / 100000000))
      (TxEnv.healthy 2 2) 2 1 (5098765432 / 100000000) 2
  rw [b1] at c1
  rw [b2] at c2
  simp only [Option.map_some'] at c1 c2
  obtain ⟨v3, r3, -⟩ := ProcessTransfer_funded (2555555555 / 100000000)
    (hserved 3 3) c1 c2 (by norm_num)
  have h := C21_final_balance_is_net_flow
    [⟨TxEnv.healthy 1 1, 1, 2, 10012345678 / 100000000⟩,
      ⟨TxEnv.healthy 2 2, 2, 1, 5098765432 / 100000000⟩,
      ⟨TxEnv.healthy 3 3, 1, 2, 2555555555 / 100000000⟩]
    (DB.ofList [(1, 100012345678 / 100000000), (2, 50098765432 / 100000000)]) 1
    (100012345678 / 100000000)
    (by
      intro r hr
      simp only [runTransfers, r1, d1, r2, d2, r3, List.mem_cons, List.mem_singleton,
        List.not_mem_nil, or_false] at hr
      rcases hr with rfl | rfl | rfl <;> exact ⟨_, rfl⟩)
    a1
  rw [h]
  simp [received, sent]
  norm_num

/-! ## Frame of a transfer -/

/-- C23: for every database and every call of `ProcessTransfer`, succeeding or failing,
an id has a row afterwards exactly when it had one before, and the row, hence the balance,
of every account other than the source and the destination is the same as before. -/
theorem C23_transfer_frame (db : DB) (env : TxEnv) (source dest : Int) (amount : Decimal)
    (k : Int) :
    ((ProcessTransfer db env source dest amount).db.accounts k).isSome
        = (db.accounts k).isSome ∧
      (k ≠ source → k ≠ dest →
        (ProcessTransfer db env source dest amount).db.accounts k = db.accounts k ∧
        (ProcessTransfer db env source dest amount).db.balance k = db.balance k) := by
  rcases ho : (ProcessTransfer db env source dest amount).result with e | ⟨t, nsb, ndb⟩
  · rw [ProcessTransfer_error ho]
    exact ⟨rfl, fun _ _ => ⟨rfl, rfl⟩⟩
  · obtain ⟨rs, rd, -, -, -, hdb, -, -, -⟩ := ProcessTransfer_ok ho
    rw [hdb]
    refine ⟨?_, fun h1 h2 => ?_⟩
    · simp only [committed, insertTransaction, updateBalance]
      split_ifs <;> simp
    · have h := @committed_accounts_other db env source dest k amount h1 h2
      exact ⟨h, by simp [DB.balance, h]⟩

/-- Instance of C23: a transfer from account 1 to account 2 leaves the row of account 3 as
it was. -/
theorem C23_transfer_frame_witness :
    (ProcessTransfer (DB.ofList [(1, 1000), (2, 500), (3, 70)]) (TxEnv.healthy 7 1) 1 2
        (201 / 2)).db.accounts 3 = (DB.ofList [(1, 1000), (2, 500), (3, 70)]).accounts 3 ∧
      (ProcessTransfer (DB.ofList [(1, 1000), (2, 500), (3, 70)]) (TxEnv.healthy 7 1) 1 2
        (201 / 2)).db.balance 3 = (DB.ofList [(1, 1000), (2, 500), (3, 70)]).balance 3 :=
  (C23_transfer_frame (DB.ofList [(1, 1000), (2, 500), (3, 70)]) (TxEnv.healthy 7 1) 1 2
    (201 / 2) 3).2 (by decide) (by decide)

/-! ## Both accounts missing -/

/-- C24: when neither the source row nor the destination row exists, `Begin` and the first
locking read being served, `ProcessTransfer` returns the not-found error of the account
with the smaller id, whatever the amount: `ErrSourceAccountNotFound` when the source id is
the smaller one, `ErrDestinationAccountNotFound` when the destination id is. -/
theorem C24_not_found_follows_lock_order (db : DB) (env : TxEnv) (source dest : Int)
    (amount : Decimal) (hb : env.beginErr = none) (hf : env.lockFirstErr = none)
    (hs : db.accounts source = none) (hd : db.accounts dest = none) :
    (source < dest →
      (ProcessTransfer db env source dest amount).result
        = .error (.code ErrSourceAccountNotFound)) ∧
    (dest < source →
      (ProcessTransfer db env source dest amount).result
        = .error (.code ErrDestinationAccountNotFound)) := by
  constructor
  · intro hlt
    simp [ProcessTransfer, lockAccounts, selectBalanceForUpdate, hb, hf, hs, hlt]
  · intro hlt
    have hnot : ¬ source < dest := not_lt.mpr hlt.le
    simp [ProcessTransfer, lockAccounts, selectBalanceForUpdate, hb, hf, hd, hnot]

/-- Instance of C24: with no account stored, 1 to 2 gives `ErrSourceAccountNotFound` and
2 to 1 gives `ErrDestinationAccountNotFound`. -/
theorem C24_not_found_follows_lock_order_witness :
    (ProcessTransfer DB.empty (TxEnv.healthy 7 1) 1 2 10).result
        = .error (.code ErrSourceAccountNotFound) ∧
      (ProcessTransfer DB.empty (TxEnv.healthy 7 1) 2 1 10).result
        = .error (.code ErrDestinationAccountNotFound) :=
  ⟨(C24_not_found_follows_lock_order DB.empty (TxEnv.healthy 7 1) 1 2 10 rfl rfl rfl rfl).1
      (by decide),
    (C24_not_found_follows_lock_order DB.empty (TxEnv.healthy 7 1) 2 1 10 rfl rfl rfl rfl).2
      (by decide)⟩

/-! ## Negative amounts -/

/-- A database listed with non-negative balances has non-negative balances. -/
theorem ofList_nonNegative (rows : List (Int × Decimal)) (h : ∀ q ∈ rows, 0 ≤ q.2) :
    (DB.ofList rows).NonNegative := by
  intro k r hk
  simp only [DB.ofList] at hk
  induction rows with
  | nil => simp [List.lookup] at hk
  | cons q rest ih =>
    obtain ⟨k1, b1⟩ := q
    by_cases hkk : (k == k1) = true
    · simp only [List.lookup, hkk, Option.map_some', Option.some.injEq] at hk
      rw [← hk]
      exact h (k1, b1) (List.mem_cons_self _ _)
    · simp only [List.lookup, hkk] at hk
      exact ih (fun q hq => h q (List.mem_cons_of_mem _ hq)) hk

/-- C25: `ProcessTransfer` does not look at the sign of the amount.  On every database
with non-negative balances, between two distinct existing accounts and with every
statement served, a call with a negative amount succeeds, stores a larger balance for the
source and a smaller one for the destination.  In particular there is a database with
non-negative balances on which such a call succeeds, increases the source balance and
leaves the destination balance negative. -/
theorem C25_negative_amount_unchecked :
    (∀ (db : DB) (env : TxEnv) (source dest : Int) (amount bs bd : Decimal),
      db.NonNegative → source ≠ dest → env.allServed →
      db.balance source = some bs → db.balance dest = some bd → amount < 0 →
      (∃ v, (ProcessTransfer db env source dest amount).result = .ok v) ∧
      (ProcessTransfer db env source dest amount).db.balance source = some (bs - amount) ∧
      (ProcessTransfer db env source dest amount).db.balance dest = some (bd + amount) ∧
      bs < bs - amount ∧ bd + amount < bd) ∧
    (∃ (db : DB) (env : TxEnv) (source dest : Int) (amount bs bd bs1 bd1 : Decimal),
      db.NonNegative ∧ source ≠ dest ∧
      db.balance source = some bs ∧ db.balance dest = some bd ∧ amount < 0 ∧
      (∃ v, (ProcessTransfer db env source dest amount).result = .ok v) ∧
      (ProcessTransfer db env source dest amount).db.balance source = some bs1 ∧
      (ProcessTransfer db env source dest amount).db.balance dest = some bd1 ∧
      bs < bs1 ∧ bd1 < 0) := by
  have general : ∀ (db : DB) (env : TxEnv) (source dest : Int) (amount bs bd : Decimal),
      db.NonNegative → source ≠ dest → env.allServed →
      db.balance source = some bs → db.balance dest = some bd → amount < 0 →
      (∃ v, (ProcessTransfer db env source dest amount).result = .ok v) ∧
      (ProcessTransfer db env source dest amount).db.balance source = some (bs - amount) ∧
      (ProcessTransfer db env source dest amount).db.balance dest = some (bd + amount) ∧
      bs < bs - amount ∧ bd + amount < bd := by
    intro db env source dest amount bs bd hnn hne henv hs hd hneg
    obtain ⟨rs, hrs, hbs⟩ := balance_eq_some.mp hs
    have hpos : 0 ≤ bs := hbs ▸ hnn source rs hrs
    obtain ⟨v, hv, hdb⟩ := ProcessTransfer_funded amount henv hs hd (by linarith)
    have h1 := committed_balance db env source dest amount source
    have h2 := committed_balance db env source dest amount dest
    rw [hs] at h1
    rw [hd] at h2
    simp only [Option.map_some', if_true, if_neg (Ne.symm hne), if_neg hne] at h1 h2
    refine ⟨⟨v, hv⟩, ?_, ?_, by linarith, by linarith⟩
    · rw [hdb, h1]; simp
    · rw [hdb, h2]; simp
  have hnn : (DB.ofList [(1, 100), (2, 50)]).NonNegative :=
    ofList_nonNegative _ (by
      intro q hq
      simp only [List.mem_cons, List.mem_singleton, List.not_mem_nil, or_false] at hq
      rcases hq with rfl | rfl <;> norm_num)
  obtain ⟨hv, hs1, hd1, -, -⟩ := general (DB.ofList [(1, 100), (2, 50)]) (TxEnv.healthy 7 1)
    1 2 (-80) 100 50 hnn (by decide)
    (by simp [TxEnv.allServed, TxEnv.locksServed, TxEnv.healthy])
    (by simp [DB.balance, DB.ofList, List.lookup])
    (by simp [DB.balance, DB.ofList, List.lookup]) (by norm_num)
  refine ⟨general, DB.ofList [(1, 100), (2, 50)], TxEnv.healthy 7 1, 1, 2, -80, 100, 50, 180,
    -30, hnn, by decide, by simp [DB.balance, DB.ofList, List.lookup],
    by simp [DB.balance, DB.ofList, List.lookup], by norm_num, hv, ?_, ?_, by norm_num,
    by norm_num⟩
  · rw [hs1]; norm_num
  · rw [hd1]; norm_num

/-- Instance of C25: account 1 holds 10 and account 2 holds 0; a direct call with the
amount -5 succeeds and stores 15 and -5. -/
theorem C25_negative_amount_unchecked_witness :
    (∃ v, (ProcessTransfer (DB.ofList [(1, 10), (2, 0)]) (TxEnv.healthy 7 1) 1 2 (-5)).result
        = .ok v) ∧
      (ProcessTransfer (DB.ofList [(1, 10), (2, 0)]) (TxEnv.healthy 7 1) 1 2 (-5)).db.balance 1
        = some (10 - -5) ∧
      (ProcessTransfer (DB.ofList [(1, 10), (2, 0)]) (TxEnv.healthy 7 1) 1 2 (-5)).db.balance 2
        = some (0 + -5) :=
  have h := C25_negative_amount_unchecked.1 (DB.ofList [(1, 10), (2, 0)]) (TxEnv.healthy 7 1)
    1 2 (-5) 10 0
    (ofList_nonNegative _ (by
      intro q hq
      simp only [List.mem_cons, List.mem_singleton, List.not_mem_nil, or_false] at hq
      rcases hq with rfl | rfl <;> norm_num))
    (by decide) (by simp [TxEnv.allServed, TxEnv.locksServed, TxEnv.healthy])
    (by simp [DB.balance, DB.ofList, List.lookup])
    (by simp [DB.balance, DB.ofList, List.lookup]) (by norm_num)
  ⟨h.1, h.2.1, h.2.2.1⟩

/-! ## Equal transfers in both directions -/

theorem transfersFromTo_cons (src dst : Int) (c : TransferCall) (cs : List TransferCall) :
    transfersFromTo src dst (c :: cs)
      = transfersFromTo src dst cs + (if c.source = src ∧ c.dest = dst then 1 else 0) := by
  by_cases h : c.source = src ∧ c.dest = dst <;>
    simp [transfersFromTo, List.countP_cons, h]

/-- Transfers of one amount `x` between `A` and `B`, in any order, out of balances that
cover the total sent in each direction: all succeed and each balance changes by the net
flow. -/
theorem runTransfers_between {A B : Int} {x : Decimal} (hne : A ≠ B) (hx : 0 ≤ x) :
    ∀ (calls : List TransferCall) (db : DB) (a b : Decimal),
      (∀ c ∈ calls, c.env.allServed ∧ c.amount = x ∧
        ((c.source = A ∧ c.dest = B) ∨ (c.source = B ∧ c.dest = A))) →
      db.balance A = some a → db.balance B = some b →
      (transfersFromTo A B calls : ℚ) * x ≤ a → (transfersFromTo B A calls : ℚ) * x ≤ b →
      (∀ r ∈ (runTransfers db calls).1, ∃ v, r = .ok v) ∧
        (runTransfers db calls).2.balance A
          = some (a - transfersFromTo A B calls * x + transfersFromTo B A calls * x) ∧
        (runTransfers db calls).2.balance B
          = some (b + transfersFromTo A B calls * x - transfersFromTo B A calls * x) := by
  intro calls
  induction calls with
  | nil =>
    intro db a b _ ha hb _ _
    simp [runTransfers, transfersFromTo, ha, hb]
  | cons c cs ih =>
    intro db a b hall ha hb hla hlb
    obtain ⟨hserved, hcx, hdir⟩ := hall c (List.mem_cons_self _ _)
    have hrest : ∀ c1 ∈ cs, c1.env.allServed ∧ c1.amount = x ∧
        ((c1.source = A ∧ c1.dest = B) ∨ (c1.source = B ∧ c1.dest = A)) :=
      fun c1 hc1 => hall c1 (List.mem_cons_of_mem _ hc1)
    have hAB : 0 ≤ (transfersFromTo A B cs : ℚ) * x := mul_nonneg (Nat.cast_nonneg _) hx
    have hBA : 0 ≤ (transfersFromTo B A cs : ℚ) * x := mul_nonneg (Nat.cast_nonneg _) hx
    have hne' : B ≠ A := Ne.symm hne
    rcases hdir with ⟨hsrc, hdst⟩ | ⟨hsrc, hdst⟩
    · have n1 : transfersFromTo A B (c :: cs) = transfersFromTo A B cs + 1 := by
        rw [transfersFromTo_cons]; simp [hsrc, hdst]
      have n2 : transfersFromTo B A (c :: cs) = transfersFromTo B A cs := by
        rw [transfersFromTo_cons]; simp [hsrc, hne]
      simp only [n1, n2] at hla hlb ⊢
      push_cast at hla ⊢
      obtain ⟨v, hv, hdb⟩ := ProcessTransfer_funded x hserved ha hb (by nlinarith)
      have h1 := committed_balance db c.env A B x A
      have h2 := committed_balance db c.env A B x B
      rw [ha] at h1
      rw [hb] at h2
      simp only [Option.map_some', if_true, if_neg hne, if_neg hne'] at h1 h2
      obtain ⟨i1, i2, i3⟩ := ih (committed db c.env A B x) _ _ hrest h1 h2 (by nlinarith)
        (by nlinarith)
      simp only [runTransfers, hsrc, hdst, hcx, hv, hdb, List.mem_cons]
      refine ⟨?_, ?_, ?_⟩
      · rintro r (hr | hr)
        · exact ⟨_, hr⟩
        · exact i1 r hr
      · rw [i2]; congr 1; ring
      · rw [i3]; congr 1; ring
    · have n1 : transfersFromTo A B (c :: cs) = transfersFromTo A B cs := by
        rw [transfersFromTo_cons]; simp [hsrc, hne']
      have n2 : transfersFromTo B A (c :: cs) = transfersFromTo B A cs + 1 := by
        rw [transfersFromTo_cons]; simp [hsrc, hdst]
      simp only [n1, n2] at hla hlb ⊢
      push_cast at hlb ⊢
      obtain ⟨v, hv, hdb⟩ := ProcessTransfer_funded x hserved hb ha (by nlinarith)
      have h1 := committed_balance db c.env B A x A
      have h2 := committed_balance db c.env B A x B
      rw [ha] at h1
      rw [hb] at h2
      simp only [Option.map_some', if_true, if_neg hne, if_neg hne'] at h1 h2
      obtain ⟨i1, i2, i3⟩ := ih (committed db c.env B A x) _ _ hrest h1 h2 (by nlinarith)
        (by nlinarith)
      simp only [runTransfers, hsrc, hdst, hcx, hv, hdb, List.mem_cons]
      refine ⟨?_, ?_, ?_⟩
      · rintro r (hr | hr)
        · exact ⟨_, hr⟩
        · exact i1 r hr
      · rw [i2]; congr 1; ring
      · rw [i3]; congr 1; ring

/-- C22: for every `k`, every amount `x > 0` and two distinct accounts `A` and `B` that each
hold at least `k * x`, every sequence made of `k` transfers of `x` from `A` to `B` and `k`
transfers of `x` from `B` to `A`, in any order, executed one after another with every
statement served: all `2 * k` calls succeed and both stored balances end equal to their
starting values. -/
theorem C22_alternating_transfers_cancel (k : Nat) (x : Decimal) (A B : Int) (db : DB)
    (a b : Decimal) (calls : List TransferCall) (hne : A ≠ B) (hx : 0 < x)
    (ha : db.balance A = some a) (hb : db.balance B = some b)
    (hka : (k : ℚ) * x ≤ a) (hkb : (k : ℚ) * x ≤ b)
    (hcalls : ∀ c ∈ calls, c.env.allServed ∧ c.amount = x ∧
      ((c.source = A ∧ c.dest = B) ∨ (c.source = B ∧ c.dest = A)))
    (hAB : transfersFromTo A B calls = k) (hBA : transfersFromTo B A calls = k) :
    calls.length = 2 * k ∧
      (runTransfers db calls).1.length = 2 * k ∧
      (∀ r ∈ (runTransfers db calls).1, ∃ v, r = .ok v) ∧
      (runTransfers db calls).2.balance A = some a ∧
      (runTransfers db calls).2.balance B = some b := by
  obtain ⟨h1, h2, h3⟩ := runTransfers_between hne hx.le calls db a b hcalls ha hb
    (by rw [hAB]; exact hka) (by rw [hBA]; exact hkb)
  have hlen : calls.length = 2 * k := by
    have : ∀ cs : List TransferCall,
        (∀ c ∈ cs, c.env.allServed ∧ c.amount = x ∧
          ((c.source = A ∧ c.dest = B) ∨ (c.source = B ∧ c.dest = A))) →
        cs.length = transfersFromTo A B cs + transfersFromTo B A cs := by
      intro cs
      induction cs with
      | nil => intro _; rfl
      | cons c cs ih =>
        intro hall
        have hrec := ih (fun c1 hc1 => hall c1 (List.mem_cons_of_mem _ hc1))
        obtain ⟨-, -, hdir⟩ := hall c (List.mem_cons_self _ _)
        rw [transfersFromTo_cons, transfersFromTo_cons, List.length_cons, hrec]
        rcases hdir with ⟨hs, hd⟩ | ⟨hs, hd⟩
        · simp [hs, hd, hne, Ne.symm hne]; omega
        · simp [hs, hd, hne, Ne.symm hne]; omega
    rw [this calls hcalls, hAB, hBA]
    omega
  have hres : ∀ (cs : List TransferCall) (d : DB), (runTransfers d cs).1.length = cs.length := by
    intro cs
    induction cs with
    | nil => intro d; rfl
    | cons c cs ih => intro d; simp [runTransfers, ih]
  refine ⟨hlen, by rw [hres, hlen], h1, ?_, ?_⟩
  · rw [h2, hAB, hBA]; congr 1; ring
  · rw [h3, hAB, hBA]; congr 1; ring

/-- In a sequence whose calls with an even index go from `A` to `B` and whose calls with an
odd index go from `B` to `A`, the first `2 * n` calls hold `n` of each direction. -/
theorem transfersFromTo_alternating (f : Nat → TransferCall) {A B : Int} (hne : A ≠ B)
    (heven : ∀ i, i % 2 = 0 → (f i).source = A ∧ (f i).dest = B)
    (hodd : ∀ i, i % 2 = 1 → (f i).source = B ∧ (f i).dest = A) :
    ∀ n, transfersFromTo A B ((List.range (2 * n)).map f) = n ∧
      transfersFromTo B A ((List.range (2 * n)).map f) = n := by
  intro n
  induction n with
  | zero => exact ⟨rfl, rfl⟩
  | succ n ih =>
    obtain ⟨h0s, h0d⟩ := heven (2 * n) (by omega)
    obtain ⟨h1s, h1d⟩ := hodd (2 * n + 1) (by omega)
    have hlist : List.range (2 * (n + 1)) = List.range (2 * n) ++ [2 * n, 2 * n + 1] := by
      rw [show 2 * (n + 1) = 2 * n + 1 + 1 by ring, List.range_succ, List.range_succ]
      simp
    have happ : ∀ (s d : Int) (l1 l2 : List TransferCall),
        transfersFromTo s d (l1 ++ l2) = transfersFromTo s d l1 + transfersFromTo s d l2 := by
      intro s d l1 l2
      simp [transfersFromTo, List.countP_append]
    rw [hlist, List.map_append, happ, happ, ih.1, ih.2]
    simp only [List.map_cons, List.map_nil, transfersFromTo_cons, h0s, h0d, h1s, h1d]
    simp [transfersFromTo, hne, Ne.symm hne]

/-- Instance of C22: 1000 transfers of 10.00, alternating 1 to 2 and 2 to 1, between two
accounts holding 10000000.00 all succeed and leave both balances at 10000000. -/
theorem C22_alternating_transfers_cancel_witness :
    (∀ r ∈ (runTransfers (DB.ofList [(1, 10000000), (2, 10000000)])
        ((List.range (2 * 500)).map fun i =>
          if i % 2 = 0 then (⟨TxEnv.healthy i (i + 1), 1, 2, 10⟩ : TransferCall)
          else ⟨TxEnv.healthy i (i + 1), 2, 1, 10⟩)).1, ∃ v, r = .ok v) ∧
      (runTransfers (DB.ofList [(1, 10000000), (2, 10000000)])
        ((List.range (2 * 500)).map fun i =>
          if i % 2 = 0 then (⟨TxEnv.healthy i (i + 1), 1, 2, 10⟩ : TransferCall)
          else ⟨TxEnv.healthy i (i + 1), 2, 1, 10⟩)).2.balance 1 = some 10000000 ∧
      (runTransfers (DB.ofList [(1, 10000000), (2, 10000000)])
        ((List.range (2 * 500)).map fun i =>
          if i % 2 = 0 then (⟨TxEnv.healthy i (i + 1), 1, 2, 10⟩ : TransferCall)
          else ⟨TxEnv.healthy i (i + 1), 2, 1, 10⟩)).2.balance 2 = some 10000000 := by
  have hcount := transfersFromTo_alternating
    (fun i => if i % 2 = 0 then (⟨TxEnv.healthy i (i + 1), 1, 2, 10⟩ : TransferCall)
      else ⟨TxEnv.healthy i (i + 1), 2, 1, 10⟩)
    (show (1 : Int) ≠ 2 by decide)
    (by intro i hi; simp [hi]) (by intro i hi; simp [hi]) 500
  have h := C22_alternating_transfers_cancel 500 10 1 2
    (DB.ofList [(1, 10000000), (2, 10000000)]) 10000000 10000000
    ((List.range (2 * 500)).map fun i =>
      if i % 2 = 0 then (⟨TxEnv.healthy i (i + 1), 1, 2, 10⟩ : TransferCall)
      else ⟨TxEnv.healthy i (i + 1), 2, 1, 10⟩)
    (by decide) (by norm_num)
    (by simp [DB.balance, DB.ofList, List.lookup])
    (by simp [DB.balance, DB.ofList, List.lookup])
    (by norm_num) (by norm_num)
    (by
      intro c hc
      obtain ⟨i, -, rfl⟩ := List.mem_map.mp hc
      by_cases hi : i % 2 = 0 <;>
        simp [hi, TxEnv.allServed, TxEnv.locksServed, TxEnv.healthy])
    hcount.1 hcount.2
  exact ⟨h.2.2.1, h.2.2.2.1, h.2.2.2.2⟩

end Transfers
